import Mathlib

set_option maxHeartbeats 1000000

/-!
Shallow embedding of the plugin lifecycle manager of
`src/services/pluginManagerService.ts` (elizaos-plugins/plugin-plugin-manager).

Component names are strings, event-handler references are natural numbers
(standing for JS object identity), and timestamps are naturals passed in
explicitly (standing for `Date.now()`).  JS `Map`s become association lists
with JS `Map` semantics (`mget` / `mset` / `mdel` / `mupdate`), JS `Set`s
become insertion-ordered duplicate-free lists (`addSet`), and
`Array.prototype.splice` at a `findIndex` becomes `removeFirstEq` /
`removeFirstP`.  Operations that in TypeScript throw return
`Except String _` together with the state as mutated up to (and by) the
`catch` blocks, exactly as the in-place mutations survive a re-thrown
exception in the source.
-/

deriving instance DecidableEq for Except

/-- Remove the first occurrence of `a` from a list; the list is unchanged when
`a` does not occur (mirrors `findIndex` + `splice` guarded by `index !== -1`,
and JS `Map.delete` / `Set.delete` on unique entries). -/
def removeFirstEq [DecidableEq α] (a : α) : List α → List α
  | [] => []
  | x :: xs => if x = a then xs else x :: removeFirstEq a xs

/-- Remove the first element satisfying a boolean predicate (mirrors
`findIndex` + `splice`). -/
def removeFirstP (p : α → Bool) : List α → List α
  | [] => []
  | x :: xs => if p x then xs else x :: removeFirstP p xs

/-- Number of occurrences of `a` in a list. -/
def countEq [DecidableEq α] (a : α) : List α → Nat
  | [] => 0
  | x :: xs => (if x = a then 1 else 0) + countEq a xs

/-- JS `Set.add`: append if absent, keeping insertion order and no duplicates. -/
def addSet [DecidableEq α] (a : α) (l : List α) : List α :=
  if a ∈ l then l else l ++ [a]

/-- JS `Map.get` on an association list (first matching key). -/
def mget [DecidableEq κ] (m : List (κ × α)) (k : κ) : Option α :=
  match m with
  | [] => none
  | (k', v) :: rest => if k' = k then some v else mget rest k

/-- JS `Map.set`: replace the value at an existing key in place, else append. -/
def mset [DecidableEq κ] (m : List (κ × α)) (k : κ) (v : α) : List (κ × α) :=
  match m with
  | [] => [(k, v)]
  | (k', v') :: rest => if k' = k then (k, v) :: rest else (k', v') :: mset rest k v

/-- JS `Map.delete`: drop the entry with the given key. -/
def mdel [DecidableEq κ] (m : List (κ × α)) (k : κ) : List (κ × α) :=
  match m with
  | [] => []
  | (k', v') :: rest => if k' = k then rest else (k', v') :: mdel rest k

/-- Update the value stored at a key in place; no-op when the key is absent
(mirrors `updatePluginState`, which spreads over the existing record). -/
def mupdate [DecidableEq κ] (m : List (κ × α)) (k : κ) (f : α → α) : List (κ × α) :=
  match m with
  | [] => []
  | (k', v) :: rest => if k' = k then (k', f v) :: rest else (k', v) :: mupdate rest k f

/-- A background service declared by a plugin: its `serviceType` and whether
its asynchronous `start` entry point throws (the start call is external plugin
code, so its outcome is an input of the model). -/
structure ServiceDecl where
  serviceType : String
  startFails : Bool
deriving DecidableEq

/-- An in-process plugin object (the `Plugin` shape of the host).  `events`
maps an event name to the declared handler references.  `initResult` models
the optional `init` hook: `none` means no hook, `some none` a hook that
succeeds, `some (some e)` a hook that throws `e`. -/
structure Plugin where
  name : String
  actions : List String := []
  providers : List String := []
  evaluators : List String := []
  events : List (String × List Nat) := []
  services : List ServiceDecl := []
  initResult : Option (Option String) := none
deriving DecidableEq

/-- The `PluginStatus` enumeration from `src/types` (declaration-only module): the four
lifecycle states. -/
inductive PluginStatus
  | ready
  | loaded
  | unloaded
  | error
deriving DecidableEq

/-- The `ComponentSet` a plugin currently owns (`state.components`). -/
structure PluginComponents where
  actions : List String := []
  providers : List String := []
  evaluators : List String := []
  services : List String := []
  eventHandlers : List (String × List Nat) := []
deriving DecidableEq

def emptyComponents : PluginComponents := {}

/-- The immutable audit record appended by `trackComponentRegistration`. -/
structure ComponentRegistration where
  pluginId : String
  componentType : String
  componentName : String
  timestamp : Nat
deriving DecidableEq

/-- One `PluginState` record of the plugin state store. -/
structure PluginState where
  id : String
  name : String
  status : PluginStatus
  plugin : Option Plugin := none
  missingEnvVars : List String := []
  buildLog : List String := []
  error : Option String := none
  createdAt : Nat := 0
  loadedAt : Option Nat := none
  unloadedAt : Option Nat := none
  components : PluginComponents := {}
deriving DecidableEq

/-- The host-wide registries of the `IAgentRuntime` collaborator (spec section 6):
flat component lists, the event bus keyed by event name, the service table
keyed by service type, and the active-plugins list. -/
structure HostRuntime where
  actions : List String := []
  providers : List String := []
  evaluators : List String := []
  events : List (String × List Nat) := []
  services : List String := []
  plugins : List Plugin := []
deriving DecidableEq

/-- A catalog entry of the remote plugin registry. -/
structure RegistryEntry where
  name : String
  description : Option String := none
  repository : String := ""
  npmRepo : Option String := none
  npmV1 : Option String := none
  gitRepo : Option String := none
  gitBranch : Option String := none
  gitVersion : Option String := none
deriving DecidableEq

abbrev Catalog := List (String × RegistryEntry)

/-- The module-level registry cache (`registryCache`). -/
structure RegistryCache where
  data : Catalog
  timestamp : Nat
deriving DecidableEq

def CACHE_DURATION : Nat := 3600000

/-- A required configuration variable as produced by `parsePluginMetadata`. -/
structure EnvVar where
  name : String
  description : String
  sensitive : Bool
  isSet : Bool
deriving DecidableEq

/-- The relevant fields of an installed artifact's `package.json`. -/
structure PackageJson where
  name : Option String := none
  version : Option String := none
  main : Option String := none
  requiredEnvVarsCfg : List (String × String × Bool) := []
deriving DecidableEq

structure PluginMetadata where
  name : String
  version : String
  requiredEnvVars : List EnvVar
deriving DecidableEq

/-- Values of `DynamicPluginInfo.status`. -/
inductive InstallStatus
  | installed
  | loaded
  | active
  | inactive
  | error
  | needsConfiguration
deriving DecidableEq

/-- One `DynamicPluginInfo` record (`InstalledPluginRecord` of the spec). -/
structure DynamicPluginInfo where
  name : String
  version : String
  status : InstallStatus
  path : String
  requiredEnvVars : List EnvVar
  errorDetails : Option String := none
  installedAt : Nat
deriving DecidableEq

/-- The `PluginManagerService` state. -/
structure Manager where
  plugins : List (String × PluginState) := []
  originalPlugins : List Plugin := []
  originalActions : List String := []
  originalProviders : List String := []
  originalEvaluators : List String := []
  originalServices : List String := []
  installedPlugins : List (String × DynamicPluginInfo) := []
  componentRegistry : List (String × List ComponentRegistration) := []
deriving DecidableEq

/-- The combined mutable state a lifecycle call touches: the manager and the
shared host runtime. -/
structure World where
  mgr : Manager
  rt : HostRuntime
deriving DecidableEq

/-- Embedding of `createUniqueUuid(runtime, name)`: it derives a stable id deterministically
from the plugin name (same name gives the same id); modelled as the name
itself. -/
def createUniqueUuid (name : String) : String := name

/-- Component names a pre-existing plugin contributes, as recorded by the
startup scan. -/
def origComponentsOf (pl : Plugin) : PluginComponents :=
  { actions := pl.actions.foldl (fun s a => addSet a s) []
  , providers := pl.providers.foldl (fun s a => addSet a s) []
  , evaluators := pl.evaluators.foldl (fun s a => addSet a s) []
  , services := pl.services.foldl (fun s d => addSet d.serviceType s) []
  , eventHandlers := [] }

def origRecord (pid : String) (pl : Plugin) (now : Nat) : PluginState :=
  { id := pid
  , name := pl.name
  , status := PluginStatus.loaded
  , plugin := some pl
  , createdAt := now
  , loadedAt := some now
  , components := origComponentsOf pl }

/-- Embedding of `initializeRegistry`: register the pre-existing plugins as `LOADED`
records. -/
def initRegistry (rtPlugins : List Plugin) (now : Nat) : List (String × PluginState) :=
  rtPlugins.foldl
    (fun m pl => mset m (createUniqueUuid pl.name) (origRecord (createUniqueUuid pl.name) pl now)) []

/-- The constructor of `PluginManagerService`: capture the original plugins and
the original component-name sets (`storeOriginalComponents`), then register the
pre-existing plugins. -/
def newManager (rt : HostRuntime) (now : Nat) : Manager :=
  { plugins := initRegistry rt.plugins now
  , originalPlugins := rt.plugins
  , originalActions := rt.actions.foldl (fun s a => addSet a s) []
  , originalProviders := rt.providers.foldl (fun s a => addSet a s) []
  , originalEvaluators := rt.evaluators.foldl (fun s a => addSet a s) []
  , originalServices := rt.services.foldl (fun s a => addSet a s) []
  , installedPlugins := []
  , componentRegistry := [] }

def busGet (bus : List (String × List Nat)) (e : String) : List Nat :=
  (mget bus e).getD []

/-- Embedding of `runtime.registerEvent(name, handler)` of the host collaborator (spec
section 6): append the handler under the event name. -/
def busAdd (bus : List (String × List Nat)) (e : String) (h : Nat) : List (String × List Nat) :=
  mset bus e ((mget bus e).getD [] ++ [h])

/-- Modelled from the spec: `unregisterEvent` comes from `src/coreExtensions.ts`,
whose source is not under `src/` (only its tests are).  Per spec section 4.4 it
asks the host event bus to "unregister exactly that handler reference (not the
whole event)", and per the coreExtensions tests the event entry is dropped once
its handler list becomes empty. -/
def busRemove (bus : List (String × List Nat)) (e : String) (h : Nat) : List (String × List Nat) :=
  match mget bus e with
  | none => bus
  | some l =>
    let l' := removeFirstEq h l
    if l' = [] then mdel bus e else mset bus e l'

/-- One registration loop of `registerPluginComponents` for actions, providers
or evaluators: append to the host list, add to the plugin's component set, and
append a `ComponentRegistration` audit entry. -/
def regList (pid ctype : String) (now : Nat) :
    List String → List String × List String × List ComponentRegistration →
    List String × List String × List ComponentRegistration
  | [], acc => acc
  | n :: rest, (rtL, compL, aud) =>
    regList pid ctype now rest (rtL ++ [n], addSet n compL, aud ++ [⟨pid, ctype, n, now⟩])

/-- The inner handler loop of the event-registration block. -/
def regHandlers (pid e : String) (now : Nat) :
    List Nat →
    List (String × List Nat) × List (String × List Nat) × List ComponentRegistration →
    List (String × List Nat) × List (String × List Nat) × List ComponentRegistration
  | [], acc => acc
  | h :: rest, (bus, eh, aud) =>
    regHandlers pid e now rest
      (busAdd bus e h, mset eh e (addSet h ((mget eh e).getD [])),
       aud ++ [⟨pid, "eventHandler", e, now⟩])

/-- The event-registration block of `registerPluginComponents`. -/
def regEvents (pid : String) (now : Nat) :
    List (String × List Nat) →
    List (String × List Nat) × List (String × List Nat) × List ComponentRegistration →
    List (String × List Nat) × List (String × List Nat) × List ComponentRegistration
  | [], acc => acc
  | (e, hs) :: rest, (bus, eh, aud) =>
    let eh0 := if (mget eh e).isSome then eh else mset eh e []
    regEvents pid now rest (regHandlers pid e now hs (bus, eh0, aud))

/-- The service-registration block: start each declared service; a start
failure is logged and skipped, a success installs the service type into the
host service table. -/
def regServices (pid : String) (now : Nat) :
    List ServiceDecl → List String × List String × List ComponentRegistration →
    List String × List String × List ComponentRegistration
  | [], acc => acc
  | s :: rest, (tab, compS, aud) =>
    if s.startFails then regServices pid now rest (tab, compS, aud)
    else regServices pid now rest
      (addSet s.serviceType tab, addSet s.serviceType compS,
       aud ++ [⟨pid, "service", s.serviceType, now⟩])

/-- One unregistration loop of `unregisterPluginComponents` for actions,
providers or evaluators: names in the original set are left untouched; other
names are spliced out of the host list at their first index (when present) and
deleted from the plugin's component set. -/
def unregList (origs : List String) :
    List String → List String × List String → List String × List String
  | [], acc => acc
  | n :: rest, (rtL, compL) =>
    if n ∈ origs then unregList origs rest (rtL, compL)
    else if n ∈ rtL then
      unregList origs rest (removeFirstEq n rtL, removeFirstEq n compL)
    else unregList origs rest (rtL, compL)

def unregHandlers (e : String) : List Nat → List (String × List Nat) → List (String × List Nat)
  | [], bus => bus
  | h :: rest, bus => unregHandlers e rest (busRemove bus e h)

/-- The event-handler unregistration block: each `(eventName, handler)` pair
the plugin owns is unregistered from the bus individually. -/
def unregEvents : List (String × List Nat) → List (String × List Nat) → List (String × List Nat)
  | [], bus => bus
  | (e, hs) :: rest, bus => unregEvents rest (unregHandlers e hs bus)

/-- The service unregistration block: service types outside the original set
that are present in the host service table are stopped (stop errors are logged,
not fatal) and removed from the table and from the component set. -/
def unregServices (origs : List String) :
    List ServiceDecl → List String × List String → List String × List String
  | [], acc => acc
  | s :: rest, (tab, compS) =>
    if s.serviceType ∈ origs then unregServices origs rest (tab, compS)
    else if s.serviceType ∈ tab then
      unregServices origs rest
        (removeFirstEq s.serviceType tab, removeFirstEq s.serviceType compS)
    else unregServices origs rest (tab, compS)

/-- Embedding of `Array.from(this.plugins.values()).find((p) => p.plugin === plugin)`,
together with the map key the found record is stored under. -/
def findPluginEntry (m : Manager) (pl : Plugin) : Option (String × PluginState) :=
  m.plugins.find? (fun p => decide (p.2.plugin = some pl))

/-- Embedding of `registerPluginComponents`: register actions, providers, evaluators, event
handlers and services in that order, then push the plugin onto the host's
active-plugins list. -/
def registerPluginComponents (w : World) (pl : Plugin) (now : Nat) : World × Except String Unit :=
  match findPluginEntry w.mgr pl with
  | none => (w, Except.error "Plugin state not found during component registration")
  | some (k, st) =>
    let (rtA, cA, aud1) := regList st.id "action" now pl.actions (w.rt.actions, st.components.actions, [])
    let (rtP, cP, aud2) := regList st.id "provider" now pl.providers (w.rt.providers, st.components.providers, aud1)
    let (rtE, cE, aud3) := regList st.id "evaluator" now pl.evaluators (w.rt.evaluators, st.components.evaluators, aud2)
    let (bus, cEH, aud4) := regEvents st.id now pl.events (w.rt.events, st.components.eventHandlers, aud3)
    let (tab, cS, aud5) := regServices st.id now pl.services (w.rt.services, st.components.services, aud4)
    let comps : PluginComponents := ⟨cA, cP, cE, cS, cEH⟩
    let mgr1 : Manager :=
      { w.mgr with
        plugins := mupdate w.mgr.plugins k (fun r => { r with components := comps })
        componentRegistry :=
          mset w.mgr.componentRegistry st.id
            ((mget w.mgr.componentRegistry st.id).getD [] ++ aud5) }
    let rt1 : HostRuntime :=
      { actions := rtA, providers := rtP, evaluators := rtE
      , events := bus, services := tab, plugins := w.rt.plugins ++ [pl] }
    (⟨mgr1, rt1⟩, Except.ok ())

/-- Embedding of `unregisterPluginComponents`: revert components per type, clear the
plugin's event-handler map, remove the plugin from the active-plugins list by
name, and delete its audit trail. -/
def unregisterPluginComponents (w : World) (pl : Plugin) : World × Except String Unit :=
  match findPluginEntry w.mgr pl with
  | none => (w, Except.ok ())
  | some (k, st) =>
    let (rtA, cA) := unregList w.mgr.originalActions pl.actions (w.rt.actions, st.components.actions)
    let (rtP, cP) := unregList w.mgr.originalProviders pl.providers (w.rt.providers, st.components.providers)
    let (rtE, cE) := unregList w.mgr.originalEvaluators pl.evaluators (w.rt.evaluators, st.components.evaluators)
    let bus := unregEvents st.components.eventHandlers w.rt.events
    let (tab, cS) := unregServices w.mgr.originalServices pl.services (w.rt.services, st.components.services)
    let comps : PluginComponents := ⟨cA, cP, cE, cS, []⟩
    let mgr1 : Manager :=
      { w.mgr with
        plugins := mupdate w.mgr.plugins k (fun r => { r with components := comps })
        componentRegistry := mdel w.mgr.componentRegistry st.id }
    let rt1 : HostRuntime :=
      { actions := rtA, providers := rtP, evaluators := rtE
      , events := bus, services := tab
      , plugins := removeFirstP (fun q => decide (q.name = pl.name)) w.rt.plugins }
    (⟨mgr1, rt1⟩, Except.ok ())

/-- Embedding of `registerPlugin`: create a fresh `READY` record; fails when a record with
the same derived id already exists. -/
def registerPlugin (w : World) (pl : Plugin) (now : Nat) : World × Except String String :=
  let pid := createUniqueUuid pl.name
  if (mget w.mgr.plugins pid).isSome then
    (w, Except.error ("Plugin " ++ pl.name ++ " already registered"))
  else
    let st : PluginState :=
      { id := pid, name := pl.name, status := PluginStatus.ready
      , plugin := some pl, createdAt := now }
    ({ w with mgr := { w.mgr with plugins := mset w.mgr.plugins pid st } }, Except.ok pid)

/-- Outcome of running the plugin's own `init` hook. -/
def initOutcome (pl : Plugin) : Option String :=
  match pl.initResult with
  | some (some e) => some e
  | _ => none

/-- The `catch` block of `loadPlugin` / `unloadPlugin`: set status `ERROR` and
store the captured message. -/
def setRecError (w : World) (pid e : String) : World :=
  { w with mgr := { w.mgr with
      plugins := mupdate w.mgr.plugins pid
        (fun r => { r with status := PluginStatus.error, error := some e }) } }

def statusText : PluginStatus → String
  | PluginStatus.ready => "ready"
  | PluginStatus.loaded => "loaded"
  | PluginStatus.unloaded => "unloaded"
  | PluginStatus.error => "error"

/-- Embedding of `loadPlugin({pluginId, force})`. -/
def loadPlugin (w : World) (pluginId : String) (force : Bool) (now : Nat) :
    World × Except String Unit :=
  match mget w.mgr.plugins pluginId with
  | none => (w, Except.error ("Plugin " ++ pluginId ++ " not found in registry"))
  | some st =>
    if st.status = PluginStatus.loaded ∧ force = false then (w, Except.ok ())
    else if (st.status ≠ PluginStatus.ready ∧ st.status ≠ PluginStatus.unloaded) ∧ force = false then
      (w, Except.error ("Plugin " ++ st.name ++ " is not ready to load (status: "
            ++ statusText st.status ++ ")"))
    else
      match st.plugin with
      | none => (w, Except.error ("Plugin " ++ st.name ++ " has no plugin instance"))
      | some pl =>
        match initOutcome pl with
        | some e => (setRecError w pluginId e, Except.error e)
        | none =>
          match registerPluginComponents w pl now with
          | (w1, Except.error e) => (setRecError w1 pluginId e, Except.error e)
          | (w1, Except.ok _) =>
            ({ w1 with mgr := { w1.mgr with
                plugins := mupdate w1.mgr.plugins pluginId
                  (fun r => { r with status := PluginStatus.loaded,
                                     loadedAt := some now, error := none }) } },
             Except.ok ())

def isOriginalPluginName (m : Manager) (n : String) : Bool :=
  m.originalPlugins.any (fun p => decide (p.name = n))

/-- Embedding of `unloadPlugin({pluginId})`. -/
def unloadPlugin (w : World) (pluginId : String) (now : Nat) : World × Except String Unit :=
  match mget w.mgr.plugins pluginId with
  | none => (w, Except.error ("Plugin " ++ pluginId ++ " not found in registry"))
  | some st =>
    if st.status ≠ PluginStatus.loaded then (w, Except.ok ())
    else if isOriginalPluginName w.mgr st.name then
      (w, Except.error ("Cannot unload original plugin " ++ st.name))
    else
      match st.plugin with
      | none =>
        let e := "Plugin " ++ st.name ++ " has no plugin instance"
        (setRecError w pluginId e, Except.error e)
      | some pl =>
        match unregisterPluginComponents w pl with
        | (w1, Except.error e) => (setRecError w1 pluginId e, Except.error e)
        | (w1, Except.ok _) =>
          ({ w1 with mgr := { w1.mgr with
              plugins := mupdate w1.mgr.plugins pluginId
                (fun r => { r with status := PluginStatus.unloaded,
                                   unloadedAt := some now }) } },
           Except.ok ())

def getPluginComponents (m : Manager) (pluginId : String) : Option PluginComponents :=
  (mget m.plugins pluginId).map (fun st => st.components)

def getComponentRegistrations (m : Manager) (pluginId : String) : List ComponentRegistration :=
  (mget m.componentRegistry pluginId).getD []

/-- Embedding of `getLocalRegistryIndex`: serve a fresh cache, otherwise attempt the fetch
(whose outcome is an input of the model); on success replace the cache, on
failure serve the stale cache if one exists and an empty catalog otherwise.
The function is total: it never raises to the caller. -/
def getLocalRegistryIndex (cache : Option RegistryCache) (now : Nat)
    (fetchOutcome : Except String Catalog) : Option RegistryCache × Catalog :=
  match cache with
  | some c =>
    if now - c.timestamp < CACHE_DURATION then (cache, c.data)
    else
      match fetchOutcome with
      | Except.ok d => (some ⟨d, now⟩, d)
      | Except.error _ => (cache, c.data)
  | none =>
    match fetchOutcome with
    | Except.ok d => (some ⟨d, now⟩, d)
    | Except.error _ => (none, [])

/-- Embedding of `getAvailablePluginsFromRegistry`, which simply delegates to
`getLocalRegistryIndex`. -/
def getAvailablePluginsFromRegistry (cache : Option RegistryCache) (now : Nat)
    (fetchOutcome : Except String Catalog) : Option RegistryCache × Catalog :=
  getLocalRegistryIndex cache now fetchOutcome

/-- Embedding of `resetRegistryCache` (used by tests). -/
def resetRegistryCache (_ : Option RegistryCache) : Option RegistryCache := none

/-- Run a sequence of `getLocalRegistryIndex` calls, each with its clock value
and fetch outcome, threading the module-level cache. -/
def runRegistry : Option RegistryCache → List (Nat × Except String Catalog) → Option RegistryCache
  | c, [] => c
  | c, (t, o) :: rest => runRegistry (getLocalRegistryIndex c t o).1 rest

/-- Embedding of `parsePluginMetadata`: read back name, version and the required
configuration variables from the installed artifact's manifest; every parsed
variable starts out with `isSet := false`. -/
def parsePluginMetadata (pj : PackageJson) : PluginMetadata :=
  { name := pj.name.getD "unknown"
  , version := pj.version.getD "0.0.0"
  , requiredEnvVars := pj.requiredEnvVarsCfg.map (fun v => ⟨v.1, v.2.1, v.2.2, false⟩) }

def sanitizeChar (c : Char) : Char :=
  if c.isAlphanum ∨ c = '-' ∨ c = '_' then c else '_'

/-- Embedding of `getPluginInstallPath`: sanitize the plugin name and join it under the
configured installation root. -/
def getPluginInstallPath (pluginDirectory pluginName : String) : String :=
  pluginDirectory ++ "/installed/" ++ String.map sanitizeChar pluginName

/-- Build the `DynamicPluginInfo` record produced after an install strategy
completes: `needs_configuration` when the manifest declares at least one
required variable, `installed` otherwise. -/
def installedInfoOf (md : PluginMetadata) (dir : String) (now : Nat) : DynamicPluginInfo :=
  { name := md.name
  , version := md.version
  , status := if md.requiredEnvVars.length > 0
              then InstallStatus.needsConfiguration else InstallStatus.installed
  , path := dir
  , requiredEnvVars := md.requiredEnvVars
  , installedAt := now }

/-- Embedding of `installPluginFromRegistry(pluginName, ...)`: on success the produced
record is stored under the requested registry name argument; an install
failure re-raises the original error and stores nothing. -/
def installPluginFromRegistry (m : Manager) (pluginDirectory pluginName : String)
    (installOutcome : Except String PackageJson) (now : Nat) :
    Manager × Except String DynamicPluginInfo :=
  match installOutcome with
  | Except.error e => (m, Except.error e)
  | Except.ok pj =>
    let md := parsePluginMetadata pj
    let info := installedInfoOf md (getPluginInstallPath pluginDirectory pluginName) now
    ({ m with installedPlugins := mset m.installedPlugins pluginName info }, Except.ok info)

/-- Embedding of `installFromLocalBundle(bundlePath, ...)`: the bundle path must exist and
be a directory (archives fail loudly); the produced record is stored under the
manifest-declared name. -/
def installFromLocalBundle (m : Manager) (pluginDirectory bundlePath : String)
    (pathExists isDirectory : Bool) (pj : PackageJson) (now : Nat) :
    Manager × Except String DynamicPluginInfo :=
  if pathExists = false then
    (m, Except.error ("Bundle path does not exist: " ++ bundlePath))
  else if isDirectory = false then
    (m, Except.error "Compressed bundle installation not yet implemented")
  else
    let md := parsePluginMetadata pj
    let info := installedInfoOf md (getPluginInstallPath pluginDirectory md.name) now
    ({ m with installedPlugins := mset m.installedPlugins md.name info }, Except.ok info)

def getInstalledPluginInfo (m : Manager) (pluginName : String) : Option DynamicPluginInfo :=
  mget m.installedPlugins pluginName

def listInstalledPlugins (m : Manager) : List DynamicPluginInfo :=
  m.installedPlugins.map (fun p => p.2)

/-- The `catch` block of `loadInstalledPlugin`: mark the installed record as
failed. -/
def setInstalledError (w : World) (pluginName e : String) : World :=
  { w with mgr := { w.mgr with
      installedPlugins := mupdate w.mgr.installedPlugins pluginName
        (fun i => { i with status := InstallStatus.error, errorDetails := some e }) } }

def setInstalledLoaded (w : World) (pluginName : String) : World :=
  { w with mgr := { w.mgr with
      installedPlugins := mupdate w.mgr.installedPlugins pluginName
        (fun i => { i with status := InstallStatus.loaded }) } }

/-- Embedding of `loadInstalledPlugin(pluginName)`: looked up by the key the record was
stored under; a record still needing configuration fails before anything is
loaded or registered.  `loadedModule` is the outcome of the dynamic module
load (`loadPluginModule`), an external effect. -/
def loadInstalledPlugin (w : World) (pluginName : String) (loadedModule : Option Plugin)
    (now : Nat) : World × Except String String :=
  match mget w.mgr.installedPlugins pluginName with
  | none => (w, Except.error ("Plugin " ++ pluginName ++ " is not installed"))
  | some info =>
    if info.status = InstallStatus.needsConfiguration then
      (w, Except.error ("Plugin " ++ pluginName ++ " requires configuration before loading"))
    else
      match loadedModule with
      | none =>
        (setInstalledError w pluginName "Failed to load plugin module",
         Except.error "Failed to load plugin module")
      | some pl =>
        match registerPlugin w pl now with
        | (w1, Except.error e) => (setInstalledError w1 pluginName e, Except.error e)
        | (w1, Except.ok pid) =>
          match loadPlugin w1 pid false now with
          | (w2, Except.error e) => (setInstalledError w2 pluginName e, Except.error e)
          | (w2, Except.ok _) => (setInstalledLoaded w2 pluginName, Except.ok pid)

/-- The empty host runtime used by the concrete scenarios. -/
def rtEmpty : HostRuntime := {}

/-- A fresh world with no pre-existing plugins or components. -/
def worldEmpty : World := ⟨newManager rtEmpty 0, rtEmpty⟩

/-- Dynamically loaded plugin `A` declaring action name `x`. -/
def exPluginA : Plugin := { name := "A", actions := ["x"] }

/-- Dynamically loaded plugin `B` declaring the same action name `x`. -/
def exPluginB : Plugin := { name := "B", actions := ["x"] }

/-- Both `A` and `B` registered and loaded: the host action registry holds two
entries named `x`. -/
def exC1World : World :=
  (loadPlugin
    (loadPlugin
      ((registerPlugin ((registerPlugin worldEmpty exPluginA 1).1) exPluginB 1).1)
      "A" false 2).1
    "B" false 3).1

/-- An original plugin whose `init` hook throws. -/
def exPluginOrig : Plugin := { name := "orig", initResult := some (some "boom") }

def rtOrig : HostRuntime := { plugins := [exPluginOrig] }

def exC4World : World := ⟨newManager rtOrig 0, rtOrig⟩

/-- Force-load the original plugin; its init hook throws, so its record moves
to `ERROR`. -/
def exC4ErrWorld : World := (loadPlugin exC4World "orig" true 1).1

theorem mget_cons_self [DecidableEq κ] (k : κ) (v : α) (m : List (κ × α)) :
    mget ((k, v) :: m) k = some v := by
  simp [mget]

theorem mget_cons_ne [DecidableEq κ] {k k' : κ} (h : k' ≠ k) (v : α) (m : List (κ × α)) :
    mget ((k', v) :: m) k = mget m k := by
  simp [mget, h]

theorem mget_eq_none_iff [DecidableEq κ] (m : List (κ × α)) (k : κ) :
    mget m k = none ↔ ∀ p ∈ m, p.1 ≠ k := by
  induction m with
  | nil => simp [mget]
  | cons p rest ih =>
    obtain ⟨k', v⟩ := p
    by_cases h : k' = k
    · subst h
      simp [mget]
    · simp [mget, h, ih]

theorem mget_append_left_none [DecidableEq κ] {m1 : List (κ × α)} {k : κ}
    (h : ∀ p ∈ m1, p.1 ≠ k) (m2 : List (κ × α)) :
    mget (m1 ++ m2) k = mget m2 k := by
  induction m1 with
  | nil => simp
  | cons p rest ih =>
    obtain ⟨k', v⟩ := p
    have hk : k' ≠ k := h (k', v) (by simp)
    simp only [List.cons_append]
    rw [mget_cons_ne hk]
    exact ih (fun q hq => h q (by simp [hq]))

theorem mset_absent [DecidableEq κ] {m : List (κ × α)} {k : κ}
    (h : mget m k = none) (v : α) : mset m k v = m ++ [(k, v)] := by
  induction m with
  | nil => simp [mset]
  | cons p rest ih =>
    obtain ⟨k', v'⟩ := p
    by_cases hk : k' = k
    · subst hk
      rw [mget_cons_self] at h
      exact absurd h (by simp)
    · rw [mget_cons_ne hk] at h
      simp [mset, hk, ih h]

theorem mset_append_front [DecidableEq κ] {m1 : List (κ × α)} {k : κ}
    (h : ∀ p ∈ m1, p.1 ≠ k) (m2 : List (κ × α)) (v : α) :
    mset (m1 ++ m2) k v = m1 ++ mset m2 k v := by
  induction m1 with
  | nil => simp
  | cons p rest ih =>
    obtain ⟨k', v'⟩ := p
    have hk : k' ≠ k := h (k', v') (by simp)
    simp only [List.cons_append]
    rw [mset, if_neg hk]
    rw [ih (fun q hq => h q (by simp [hq]))]

theorem mset_cons_self [DecidableEq κ] (k : κ) (v v' : α) (m : List (κ × α)) :
    mset ((k, v') :: m) k v = (k, v) :: m := by
  simp [mset]

theorem mdel_append_front [DecidableEq κ] {m1 : List (κ × α)} {k : κ}
    (h : ∀ p ∈ m1, p.1 ≠ k) (m2 : List (κ × α)) :
    mdel (m1 ++ m2) k = m1 ++ mdel m2 k := by
  induction m1 with
  | nil => simp
  | cons p rest ih =>
    obtain ⟨k', v'⟩ := p
    have hk : k' ≠ k := h (k', v') (by simp)
    simp only [List.cons_append]
    rw [mdel, if_neg hk]
    rw [ih (fun q hq => h q (by simp [hq]))]

theorem mdel_cons_self [DecidableEq κ] (k : κ) (v : α) (m : List (κ × α)) :
    mdel ((k, v) :: m) k = m := by
  simp [mdel]

theorem mget_mset_self [DecidableEq κ] (m : List (κ × α)) (k : κ) (v : α) :
    mget (mset m k v) k = some v := by
  induction m with
  | nil => simp [mset, mget]
  | cons p rest ih =>
    obtain ⟨k', v'⟩ := p
    by_cases h : k' = k
    · subst h
      simp [mset, mget]
    · simp [mset, mget, h, ih]

theorem mget_mset_ne [DecidableEq κ] (m : List (κ × α)) {k j : κ} (h : j ≠ k) (v : α) :
    mget (mset m k v) j = mget m j := by
  induction m with
  | nil => simp [mset, mget, Ne.symm h]
  | cons p rest ih =>
    obtain ⟨k', v'⟩ := p
    by_cases hk : k' = k
    · subst hk
      simp [mset, mget, Ne.symm h]
    · by_cases hj : k' = j
      · subst hj
        simp [mset, hk, mget]
      · simp [mset, mget, hk, hj, ih]

theorem mget_mupdate_self [DecidableEq κ] (m : List (κ × α)) (k : κ) (f : α → α) :
    mget (mupdate m k f) k = (mget m k).map f := by
  induction m with
  | nil => simp [mupdate, mget]
  | cons p rest ih =>
    obtain ⟨k', v⟩ := p
    by_cases h : k' = k
    · subst h
      simp [mupdate, mget]
    · simp [mupdate, mget, h, ih]

theorem mget_mupdate_ne [DecidableEq κ] (m : List (κ × α)) {k j : κ} (h : j ≠ k) (f : α → α) :
    mget (mupdate m k f) j = mget m j := by
  induction m with
  | nil => simp [mupdate, mget]
  | cons p rest ih =>
    obtain ⟨k', v⟩ := p
    by_cases hk : k' = k
    · subst hk
      simp [mupdate, mget, Ne.symm h]
    · by_cases hj : k' = j
      · subst hj
        simp [mupdate, hk, mget]
      · simp [mupdate, mget, hk, hj, ih]

theorem mupdate_append_front [DecidableEq κ] {m1 : List (κ × α)} {k : κ}
    (h : ∀ p ∈ m1, p.1 ≠ k) (m2 : List (κ × α)) (f : α → α) :
    mupdate (m1 ++ m2) k f = m1 ++ mupdate m2 k f := by
  induction m1 with
  | nil => simp
  | cons p rest ih =>
    obtain ⟨k', v'⟩ := p
    have hk : k' ≠ k := h (k', v') (by simp)
    simp only [List.cons_append]
    rw [mupdate, if_neg hk]
    rw [ih (fun q hq => h q (by simp [hq]))]

theorem mupdate_cons_self [DecidableEq κ] (k : κ) (v : α) (m : List (κ × α)) (f : α → α) :
    mupdate ((k, v) :: m) k f = (k, f v) :: m := by
  simp [mupdate]

theorem findP_skip {p : α → Bool} {l1 : List α} (h : ∀ x ∈ l1, p x = false)
    (l2 : List α) : List.find? p (l1 ++ l2) = List.find? p l2 := by
  induction l1 with
  | nil => simp
  | cons x rest ih =>
    have hx : p x = false := h x (by simp)
    simp only [List.cons_append, List.find?]
    rw [hx]
    exact ih (fun y hy => h y (by simp [hy]))

theorem removeFirstEq_cons_self [DecidableEq α] (a : α) (l : List α) :
    removeFirstEq a (a :: l) = l := by
  simp [removeFirstEq]

theorem removeFirstEq_cons_ne [DecidableEq α] {x a : α} (h : x ≠ a) (l : List α) :
    removeFirstEq a (x :: l) = x :: removeFirstEq a l := by
  simp [removeFirstEq, h]

theorem removeFirstEq_of_not_mem [DecidableEq α] {a : α} {l : List α} (h : a ∉ l) :
    removeFirstEq a l = l := by
  induction l with
  | nil => rfl
  | cons x rest ih =>
    have hx : x ≠ a := fun hxa => h (by simp [hxa])
    rw [removeFirstEq_cons_ne hx, ih (fun hm => h (by simp [hm]))]

theorem removeFirstEq_append_left [DecidableEq α] {a : α} {l1 : List α}
    (h : a ∉ l1) (l2 : List α) :
    removeFirstEq a (l1 ++ l2) = l1 ++ removeFirstEq a l2 := by
  induction l1 with
  | nil => simp
  | cons x rest ih =>
    have hx : x ≠ a := fun hxa => h (by simp [hxa])
    simp only [List.cons_append]
    rw [removeFirstEq_cons_ne hx, ih (fun hm => h (by simp [hm]))]

theorem removeFirstP_append_left {p : α → Bool} {l1 : List α}
    (h : ∀ x ∈ l1, p x = false) (l2 : List α) :
    removeFirstP p (l1 ++ l2) = l1 ++ removeFirstP p l2 := by
  induction l1 with
  | nil => simp
  | cons x rest ih =>
    have hx : p x = false := h x (by simp)
    simp only [List.cons_append]
    rw [removeFirstP, hx]
    simp only [Bool.false_eq_true, if_false]
    rw [ih (fun y hy => h y (by simp [hy]))]

theorem countEq_eq_zero_of_not_mem [DecidableEq α] {a : α} {l : List α} (h : a ∉ l) :
    countEq a l = 0 := by
  induction l with
  | nil => rfl
  | cons x rest ih =>
    have hx : x ≠ a := fun hxa => h (by simp [hxa])
    simp [countEq, hx, ih (fun hm => h (by simp [hm]))]

theorem countEq_removeFirstEq_self [DecidableEq α] (a : α) (l : List α) :
    countEq a (removeFirstEq a l) = countEq a l - 1 := by
  induction l with
  | nil => rfl
  | cons x rest ih =>
    by_cases hx : x = a
    · subst hx
      simp [removeFirstEq, countEq]
    · rw [removeFirstEq_cons_ne hx]
      simp [countEq, hx, ih]

theorem countEq_removeFirstEq_ne [DecidableEq α] {a b : α} (h : b ≠ a) (l : List α) :
    countEq b (removeFirstEq a l) = countEq b l := by
  induction l with
  | nil => rfl
  | cons x rest ih =>
    by_cases hx : x = a
    · subst hx
      simp [removeFirstEq, countEq, Ne.symm h]
    · rw [removeFirstEq_cons_ne hx]
      simp [countEq, ih]

theorem addSet_not_mem [DecidableEq α] {a : α} {l : List α} (h : a ∉ l) :
    addSet a l = l ++ [a] := by
  simp [addSet, h]

theorem foldl_addSet_fresh [DecidableEq α] :
    ∀ (ds acc : List α), ds.Nodup → (∀ x ∈ ds, x ∉ acc) →
    ds.foldl (fun c n => addSet n c) acc = acc ++ ds
  | [], acc, _, _ => by simp
  | d :: rest, acc, hnd, hfr => by
    have hd : d ∉ acc := hfr d (by simp)
    have hrestnd : rest.Nodup := (List.nodup_cons.mp hnd).2
    have hdrest : d ∉ rest := (List.nodup_cons.mp hnd).1
    simp only [List.foldl_cons]
    rw [addSet_not_mem hd]
    rw [foldl_addSet_fresh rest (acc ++ [d]) hrestnd
      (fun x hx => by
        simp only [List.mem_append, List.mem_singleton]
        rintro (hxa | hxd)
        · exact hfr x (by simp [hx]) hxa
        · exact hdrest (hxd ▸ hx))]
    simp


theorem regList_spec (pid ctype : String) (now : Nat) :
    ∀ (ds rtL compL : List String) (aud : List ComponentRegistration),
    regList pid ctype now ds (rtL, compL, aud) =
      (rtL ++ ds, ds.foldl (fun c n => addSet n c) compL,
       aud ++ ds.map (fun n => ⟨pid, ctype, n, now⟩))
  | [], rtL, compL, aud => by simp [regList]
  | n :: rest, rtL, compL, aud => by
    simp only [regList]
    rw [regList_spec pid ctype now rest]
    simp

theorem unregList_restore (origs : List String) :
    ∀ (ds rt0 : List String), ds.Nodup →
    (∀ n ∈ ds, n ∉ origs) → (∀ n ∈ ds, n ∉ rt0) →
    unregList origs ds (rt0 ++ ds, ds) = (rt0, [])
  | [], rt0, _, _, _ => by simp [unregList]
  | n :: rest, rt0, hnd, ho, hr => by
    have hno : n ∉ origs := ho n (by simp)
    have hnr : n ∉ rt0 := hr n (by simp)
    have hmem : n ∈ rt0 ++ n :: rest := by simp
    simp only [unregList, if_neg hno, if_pos hmem]
    rw [removeFirstEq_append_left hnr, removeFirstEq_cons_self]
    exact unregList_restore origs rest rt0 (List.nodup_cons.mp hnd).2
      (fun m hm => ho m (by simp [hm])) (fun m hm => hr m (by simp [hm]))

theorem unregList_count_not_orig (origs : List String) {n : String} (hn : n ∉ origs) :
    ∀ (ds rtL compL : List String),
    countEq n (unregList origs ds (rtL, compL)).1 = countEq n rtL - countEq n ds
  | [], rtL, compL => by simp [unregList, countEq]
  | m :: rest, rtL, compL => by
    by_cases hmo : m ∈ origs
    · have hmn : ¬ m = n := fun h => hn (h ▸ hmo)
      simp only [unregList, if_pos hmo]
      rw [unregList_count_not_orig origs hn rest rtL compL]
      simp [countEq, hmn]
    · by_cases hmr : m ∈ rtL
      · simp only [unregList, if_neg hmo, if_pos hmr]
        rw [unregList_count_not_orig origs hn rest (removeFirstEq m rtL) (removeFirstEq m compL)]
        by_cases hmn : m = n
        · subst hmn
          have hrhs : countEq m (m :: rest) = 1 + countEq m rest := by simp [countEq]
          rw [countEq_removeFirstEq_self]
          omega
        · rw [countEq_removeFirstEq_ne (Ne.symm hmn)]
          simp [countEq, hmn]
      · simp only [unregList, if_neg hmo, if_neg hmr]
        rw [unregList_count_not_orig origs hn rest rtL compL]
        by_cases hmn : m = n
        · subst hmn
          have h0 : countEq m rtL = 0 := countEq_eq_zero_of_not_mem hmr
          have hrhs : countEq m (m :: rest) = 1 + countEq m rest := by simp [countEq]
          omega
        · simp [countEq, hmn]

theorem unregList_count_orig (origs : List String) {n : String} (hn : n ∈ origs) :
    ∀ (ds rtL compL : List String),
    countEq n (unregList origs ds (rtL, compL)).1 = countEq n rtL
  | [], rtL, compL => by simp [unregList]
  | m :: rest, rtL, compL => by
    by_cases hmo : m ∈ origs
    · simp only [unregList, if_pos hmo]
      exact unregList_count_orig origs hn rest rtL compL
    · have hmn : m ≠ n := fun h => hmo (h ▸ hn)
      by_cases hmr : m ∈ rtL
      · simp only [unregList, if_neg hmo, if_pos hmr]
        rw [unregList_count_orig origs hn rest (removeFirstEq m rtL) (removeFirstEq m compL)]
        exact countEq_removeFirstEq_ne (Ne.symm hmn) rtL
      · simp only [unregList, if_neg hmo, if_neg hmr]
        exact unregList_count_orig origs hn rest rtL compL

theorem mem_addSet_self [DecidableEq α] (a : α) (l : List α) : a ∈ addSet a l := by
  by_cases h : a ∈ l <;> simp [addSet, h]

theorem mem_addSet_of_mem [DecidableEq α] {b : α} (a : α) {l : List α} (h : b ∈ l) :
    b ∈ addSet a l := by
  by_cases ha : a ∈ l <;> simp [addSet, ha, h]

theorem not_mem_addSet [DecidableEq α] {t a : α} {l : List α} (hne : t ≠ a) (h : t ∉ l) :
    t ∉ addSet a l := by
  by_cases ha : a ∈ l <;> simp [addSet, ha, h, hne]

theorem busAdd_absent {bus : List (String × List Nat)} {e : String}
    (h : mget bus e = none) (hd : Nat) : busAdd bus e hd = bus ++ [(e, [hd])] := by
  rw [busAdd, h]
  exact mset_absent h [hd]

theorem busAdd_last {bus0 : List (String × List Nat)} {e : String}
    (h : ∀ p ∈ bus0, p.1 ≠ e) (cur : List Nat) (hd : Nat) :
    busAdd (bus0 ++ [(e, cur)]) e hd = bus0 ++ [(e, cur ++ [hd])] := by
  rw [busAdd, mget_append_left_none h, mget_cons_self]
  rw [mset_append_front h, mset_cons_self]
  rfl

theorem regHandlers_spec (pid e : String) (now : Nat) :
    ∀ (hs : List Nat) (bus0 eh0 : List (String × List Nat)) (cur curEh : List Nat)
      (aud : List ComponentRegistration),
    hs.Nodup → (∀ h ∈ hs, h ∉ curEh) →
    (∀ p ∈ bus0, p.1 ≠ e) → (∀ p ∈ eh0, p.1 ≠ e) →
    regHandlers pid e now hs (bus0 ++ [(e, cur)], eh0 ++ [(e, curEh)], aud) =
      (bus0 ++ [(e, cur ++ hs)], eh0 ++ [(e, curEh ++ hs)],
       aud ++ hs.map (fun _ => ⟨pid, "eventHandler", e, now⟩))
  | [], bus0, eh0, cur, curEh, aud, _, _, _, _ => by simp [regHandlers]
  | h :: rest, bus0, eh0, cur, curEh, aud, hnd, hfr, hb, he => by
    have hhcur : h ∉ curEh := hfr h (by simp)
    simp only [regHandlers]
    rw [busAdd_last hb]
    rw [mget_append_left_none he, mget_cons_self]
    simp only [Option.getD_some]
    rw [addSet_not_mem hhcur, mset_append_front he, mset_cons_self]
    rw [regHandlers_spec pid e now rest bus0 eh0 (cur ++ [h]) (curEh ++ [h]) _
      (List.nodup_cons.mp hnd).2
      (fun h' hh' => by
        simp only [List.mem_append, List.mem_singleton]
        rintro (hc | hh)
        · exact hfr h' (by simp [hh']) hc
        · exact (List.nodup_cons.mp hnd).1 (hh ▸ hh'))
      hb he]
    simp

theorem regEvents_parts (pid : String) (now : Nat) :
    ∀ (evs bus0 eh0 : List (String × List Nat)) (aud : List ComponentRegistration),
    (evs.map Prod.fst).Nodup →
    (∀ pe ∈ evs, pe.2.Nodup ∧ pe.2 ≠ []) →
    (∀ pe ∈ evs, ∀ p ∈ bus0, p.1 ≠ pe.1) →
    (∀ pe ∈ evs, ∀ p ∈ eh0, p.1 ≠ pe.1) →
    (regEvents pid now evs (bus0, eh0, aud)).1 = bus0 ++ evs ∧
    (regEvents pid now evs (bus0, eh0, aud)).2.1 = eh0 ++ evs
  | [], bus0, eh0, aud, _, _, _, _ => by simp [regEvents]
  | (e, hs) :: rest, bus0, eh0, aud, hknd, hvals, hbus, heh => by
    have hbus_e : ∀ p ∈ bus0, p.1 ≠ e := hbus (e, hs) (by simp)
    have heh_e : ∀ p ∈ eh0, p.1 ≠ e := heh (e, hs) (by simp)
    have hehnone : mget eh0 e = none := (mget_eq_none_iff eh0 e).mpr heh_e
    have hbusnone : mget bus0 e = none := (mget_eq_none_iff bus0 e).mpr hbus_e
    have hhs := hvals (e, hs) (by simp)
    obtain ⟨h, hs', rfl⟩ : ∃ h hs', hs = h :: hs' := by
      cases hs with
      | nil => exact absurd rfl hhs.2
      | cons h hs' => exact ⟨h, hs', rfl⟩
    have hknd' : (rest.map Prod.fst).Nodup := by
      have := hknd
      simp only [List.map_cons, List.nodup_cons] at this
      exact this.2
    have hvals' : ∀ pe ∈ rest, pe.2.Nodup ∧ pe.2 ≠ [] :=
      fun pe hpe => hvals pe (by simp [hpe])
    have hkey : ∀ pe ∈ rest, pe.1 ≠ e := by
      intro pe hpe
      have := hknd
      simp only [List.map_cons, List.nodup_cons, List.mem_map] at this
      intro hcontra
      exact this.1 ⟨pe, hpe, hcontra⟩
    have hbus' : ∀ pe ∈ rest, ∀ p ∈ bus0 ++ [(e, h :: hs')], p.1 ≠ pe.1 := by
      intro pe hpe p hp
      rcases List.mem_append.mp hp with hp0 | hp1
      · exact hbus pe (by simp [hpe]) p hp0
      · have hpe1 : p = (e, h :: hs') := by simpa using hp1
        subst hpe1
        exact fun hcontra => hkey pe hpe hcontra.symm
    have heh' : ∀ pe ∈ rest, ∀ p ∈ eh0 ++ [(e, h :: hs')], p.1 ≠ pe.1 := by
      intro pe hpe p hp
      rcases List.mem_append.mp hp with hp0 | hp1
      · exact heh pe (by simp [hpe]) p hp0
      · have hpe1 : p = (e, h :: hs') := by simpa using hp1
        subst hpe1
        exact fun hcontra => hkey pe hpe hcontra.symm
    simp only [regEvents, hehnone, Option.isSome_none, Bool.false_eq_true, if_false]
    rw [mset_absent hehnone]
    simp only [regHandlers]
    rw [busAdd_absent hbusnone]
    rw [mget_append_left_none heh_e, mget_cons_self]
    simp only [Option.getD_some]
    have haddset : addSet h ([] : List Nat) = [h] := by simp [addSet]
    rw [haddset, mset_append_front heh_e, mset_cons_self]
    rw [regHandlers_spec pid e now hs' bus0 eh0 [h] [h] _
      (List.nodup_cons.mp hhs.1).2
      (fun h' hh' => by
        simp only [List.mem_singleton]
        intro hh
        exact (List.nodup_cons.mp hhs.1).1 (hh ▸ hh'))
      hbus_e heh_e]
    simp only [List.singleton_append]
    constructor
    · rw [(regEvents_parts pid now rest (bus0 ++ [(e, h :: hs')]) (eh0 ++ [(e, h :: hs')]) _
        hknd' hvals' hbus' heh').1]
      simp
    · rw [(regEvents_parts pid now rest (bus0 ++ [(e, h :: hs')]) (eh0 ++ [(e, h :: hs')]) _
        hknd' hvals' hbus' heh').2]
      simp

theorem unregHandlers_restore (e : String) :
    ∀ (hs : List Nat) (bus0 tail : List (String × List Nat)),
    hs ≠ [] → hs.Nodup →
    (∀ p ∈ bus0, p.1 ≠ e) → (∀ p ∈ tail, p.1 ≠ e) →
    unregHandlers e hs (bus0 ++ (e, hs) :: tail) = bus0 ++ tail
  | [], _, _, hne, _, _, _ => absurd rfl hne
  | [h], bus0, tail, _, _, hb, ht => by
    simp only [unregHandlers, busRemove]
    rw [mget_append_left_none hb, mget_cons_self]
    simp only [removeFirstEq_cons_self]
    rw [mdel_append_front hb, mdel_cons_self]
    simp
  | h :: h2 :: hs', bus0, tail, _, hnd, hb, ht => by
    simp only [unregHandlers, busRemove]
    rw [mget_append_left_none hb, mget_cons_self]
    simp only [removeFirstEq_cons_self]
    have hne2 : ¬ (h2 :: hs' = ([] : List Nat)) := by simp
    simp only [if_neg hne2]
    rw [mset_append_front hb, mset_cons_self]
    exact unregHandlers_restore e (h2 :: hs') bus0 tail (by simp)
      (List.nodup_cons.mp hnd).2 hb ht

theorem unregEvents_restore :
    ∀ (evs bus0 : List (String × List Nat)),
    (evs.map Prod.fst).Nodup →
    (∀ pe ∈ evs, pe.2.Nodup ∧ pe.2 ≠ []) →
    (∀ pe ∈ evs, ∀ p ∈ bus0, p.1 ≠ pe.1) →
    unregEvents evs (bus0 ++ evs) = bus0
  | [], bus0, _, _, _ => by simp [unregEvents]
  | (e, hs) :: rest, bus0, hknd, hvals, hbus => by
    have hhs := hvals (e, hs) (by simp)
    have hb : ∀ p ∈ bus0, p.1 ≠ e := hbus (e, hs) (by simp)
    have ht : ∀ p ∈ rest, p.1 ≠ e := by
      intro p hp
      have := hknd
      simp only [List.map_cons, List.nodup_cons, List.mem_map] at this
      intro hcontra
      exact this.1 ⟨p, hp, hcontra⟩
    simp only [unregEvents]
    rw [unregHandlers_restore e hs bus0 rest hhs.2 hhs.1 hb ht]
    exact unregEvents_restore rest bus0
      (by
        have := hknd
        simp only [List.map_cons, List.nodup_cons] at this
        exact this.2)
      (fun pe hpe => hvals pe (by simp [hpe]))
      (fun pe hpe p hp => hbus pe (by simp [hpe]) p hp)

/-- The service types of the declarations whose start succeeded. -/
def sucTypes (ds : List ServiceDecl) : List String :=
  (ds.filter (fun s => !s.startFails)).map (fun s => s.serviceType)

theorem sucTypes_cons_fail {s : ServiceDecl} (h : s.startFails = true) (rest : List ServiceDecl) :
    sucTypes (s :: rest) = sucTypes rest := by
  simp [sucTypes, List.filter, h]

theorem sucTypes_cons_ok {s : ServiceDecl} (h : s.startFails = false) (rest : List ServiceDecl) :
    sucTypes (s :: rest) = s.serviceType :: sucTypes rest := by
  simp [sucTypes, List.filter, h]

theorem mem_sucTypes_sub {t : String} : ∀ {ds : List ServiceDecl},
    t ∈ sucTypes ds → t ∈ ds.map (fun s => s.serviceType) := by
  intro ds h
  simp only [sucTypes, List.mem_map, List.mem_filter] at h
  obtain ⟨s, ⟨hs, _⟩, rfl⟩ := h
  exact List.mem_map.mpr ⟨s, hs, rfl⟩

theorem regServices_spec (pid : String) (now : Nat) :
    ∀ (ds : List ServiceDecl) (tab0 comp0 : List String) (aud : List ComponentRegistration),
    (ds.map (fun s => s.serviceType)).Nodup →
    (∀ s ∈ ds, s.serviceType ∉ tab0) → (∀ s ∈ ds, s.serviceType ∉ comp0) →
    (regServices pid now ds (tab0, comp0, aud)).1 = tab0 ++ sucTypes ds ∧
    (regServices pid now ds (tab0, comp0, aud)).2.1 = comp0 ++ sucTypes ds
  | [], tab0, comp0, aud, _, _, _ => by simp [regServices, sucTypes]
  | s :: rest, tab0, comp0, aud, hnd, htab, hcomp => by
    have hnd' : (rest.map (fun s => s.serviceType)).Nodup := by
      have := hnd
      simp only [List.map_cons, List.nodup_cons] at this
      exact this.2
    have hkey : ∀ s' ∈ rest, s'.serviceType ≠ s.serviceType := by
      intro s' hs'
      have := hnd
      simp only [List.map_cons, List.nodup_cons, List.mem_map] at this
      intro hcontra
      exact this.1 ⟨s', hs', hcontra⟩
    by_cases hf : s.startFails
    · simp only [regServices, if_pos hf]
      rw [sucTypes_cons_fail hf]
      exact regServices_spec pid now rest tab0 comp0 aud hnd'
        (fun q hq => htab q (by simp [hq])) (fun q hq => hcomp q (by simp [hq]))
    · have hf' : s.startFails = false := by simpa using hf
      simp only [regServices, if_neg hf]
      rw [sucTypes_cons_ok hf']
      rw [addSet_not_mem (htab s (by simp)), addSet_not_mem (hcomp s (by simp))]
      have hr := regServices_spec pid now rest (tab0 ++ [s.serviceType]) (comp0 ++ [s.serviceType])
        (aud ++ [⟨pid, "service", s.serviceType, now⟩])
        hnd'
        (fun q hq => by
          simp only [List.mem_append, List.mem_singleton]
          rintro (h0 | h1)
          · exact htab q (by simp [hq]) h0
          · exact hkey q hq h1)
        (fun q hq => by
          simp only [List.mem_append, List.mem_singleton]
          rintro (h0 | h1)
          · exact hcomp q (by simp [hq]) h0
          · exact hkey q hq h1)
      refine ⟨?_, ?_⟩
      · rw [hr.1]
        simp
      · rw [hr.2]
        simp

theorem unregServices_restore (origs : List String) :
    ∀ (ds : List ServiceDecl) (tab0 : List String),
    (ds.map (fun s => s.serviceType)).Nodup →
    (∀ s ∈ ds, s.serviceType ∉ origs) → (∀ s ∈ ds, s.serviceType ∉ tab0) →
    unregServices origs ds (tab0 ++ sucTypes ds, sucTypes ds) = (tab0, [])
  | [], tab0, _, _, _ => by simp [unregServices, sucTypes]
  | s :: rest, tab0, hnd, ho, htab => by
    have hnd' : (rest.map (fun s => s.serviceType)).Nodup := by
      have := hnd
      simp only [List.map_cons, List.nodup_cons] at this
      exact this.2
    have hkey : s.serviceType ∉ rest.map (fun s => s.serviceType) := by
      have := hnd
      simp only [List.map_cons, List.nodup_cons] at this
      exact this.1
    have hno : s.serviceType ∉ origs := ho s (by simp)
    have hnt : s.serviceType ∉ tab0 := htab s (by simp)
    have hnsuc : s.serviceType ∉ sucTypes rest := fun hmem => hkey (mem_sucTypes_sub hmem)
    by_cases hf : s.startFails
    · rw [sucTypes_cons_fail hf]
      have hnmem : s.serviceType ∉ tab0 ++ sucTypes rest := by
        simp only [List.mem_append]
        rintro (h0 | h1)
        · exact hnt h0
        · exact hnsuc h1
      simp only [unregServices, if_neg hno, if_neg hnmem]
      exact unregServices_restore origs rest tab0 hnd'
        (fun q hq => ho q (by simp [hq])) (fun q hq => htab q (by simp [hq]))
    · have hf' : s.startFails = false := by simpa using hf
      rw [sucTypes_cons_ok hf']
      have hmem : s.serviceType ∈ tab0 ++ s.serviceType :: sucTypes rest := by simp
      simp only [unregServices, if_neg hno, if_pos hmem]
      rw [removeFirstEq_append_left hnt, removeFirstEq_cons_self]
      exact unregServices_restore origs rest tab0 hnd'
        (fun q hq => ho q (by simp [hq])) (fun q hq => htab q (by simp [hq]))

theorem regServices_mem_mono (pid : String) (now : Nat) :
    ∀ (ds : List ServiceDecl) (tab0 comp0 : List String) (aud : List ComponentRegistration)
      (t : String), t ∈ tab0 → t ∈ (regServices pid now ds (tab0, comp0, aud)).1
  | [], tab0, comp0, aud, t, h => by simpa [regServices] using h
  | s :: rest, tab0, comp0, aud, t, h => by
    by_cases hf : s.startFails
    · simp only [regServices, if_pos hf]
      exact regServices_mem_mono pid now rest tab0 comp0 aud t h
    · simp only [regServices, if_neg hf]
      exact regServices_mem_mono pid now rest _ _ _ t (mem_addSet_of_mem _ h)

theorem regServices_success_mem (pid : String) (now : Nat) :
    ∀ (ds : List ServiceDecl) (tab0 comp0 : List String) (aud : List ComponentRegistration)
      (s : ServiceDecl), s ∈ ds → s.startFails = false →
      s.serviceType ∈ (regServices pid now ds (tab0, comp0, aud)).1
  | [], _, _, _, s, hmem, _ => absurd hmem (by simp)
  | s' :: rest, tab0, comp0, aud, s, hmem, hok => by
    rcases List.mem_cons.mp hmem with rfl | hmem'
    · simp only [regServices, hok, Bool.false_eq_true, if_false]
      exact regServices_mem_mono pid now rest _ _ _ _ (mem_addSet_self _ _)
    · by_cases hf : s'.startFails
      · simp only [regServices, if_pos hf]
        exact regServices_success_mem pid now rest tab0 comp0 aud s hmem' hok
      · simp only [regServices, if_neg hf]
        exact regServices_success_mem pid now rest _ _ _ s hmem' hok

theorem regServices_not_mem_tab (pid : String) (now : Nat) :
    ∀ (ds : List ServiceDecl) (tab0 comp0 : List String) (aud : List ComponentRegistration)
      (t : String), t ∉ tab0 → (∀ s ∈ ds, s.serviceType = t → s.startFails = true) →
      t ∉ (regServices pid now ds (tab0, comp0, aud)).1
  | [], tab0, comp0, aud, t, h, _ => by simpa [regServices] using h
  | s :: rest, tab0, comp0, aud, t, h, hds => by
    by_cases hf : s.startFails
    · simp only [regServices, if_pos hf]
      exact regServices_not_mem_tab pid now rest tab0 comp0 aud t h
        (fun q hq => hds q (by simp [hq]))
    · have hne : s.serviceType ≠ t := by
        intro hcontra
        exact hf (hds s (by simp) hcontra)
      simp only [regServices, if_neg hf]
      exact regServices_not_mem_tab pid now rest _ _ _ t
        (not_mem_addSet (fun hh => hne hh.symm) h)
        (fun q hq => hds q (by simp [hq]))

theorem regServices_not_mem_comp (pid : String) (now : Nat) :
    ∀ (ds : List ServiceDecl) (tab0 comp0 : List String) (aud : List ComponentRegistration)
      (t : String), t ∉ comp0 → (∀ s ∈ ds, s.serviceType = t → s.startFails = true) →
      t ∉ (regServices pid now ds (tab0, comp0, aud)).2.1
  | [], tab0, comp0, aud, t, h, _ => by simpa [regServices] using h
  | s :: rest, tab0, comp0, aud, t, h, hds => by
    by_cases hf : s.startFails
    · simp only [regServices, if_pos hf]
      exact regServices_not_mem_comp pid now rest tab0 comp0 aud t h
        (fun q hq => hds q (by simp [hq]))
    · have hne : s.serviceType ≠ t := by
        intro hcontra
        exact hf (hds s (by simp) hcontra)
      simp only [regServices, if_neg hf]
      exact regServices_not_mem_comp pid now rest _ _ _ t
        (not_mem_addSet (fun hh => hne hh.symm) h)
        (fun q hq => hds q (by simp [hq]))

theorem nodup_removeFirstEq_eq_filter [DecidableEq α] {l : List α} (hnd : l.Nodup) (a : α) :
    removeFirstEq a l = l.filter (fun x => decide (x ≠ a)) := by
  induction l with
  | nil => rfl
  | cons x rest ih =>
    have hx := List.nodup_cons.mp hnd
    by_cases hxa : x = a
    · subst hxa
      rw [removeFirstEq_cons_self]
      have hthis : rest.filter (fun y => decide (y ≠ x)) = rest :=
        List.filter_eq_self.mpr (fun b hb => by
          simp only [decide_eq_true_eq]
          exact fun hbx => hx.1 (hbx ▸ hb))
      rw [List.filter_cons, if_neg (by simp)]
      exact hthis.symm
    · rw [removeFirstEq_cons_ne hxa, List.filter_cons, if_pos (by simp [hxa])]
      rw [ih hx.2]

theorem unregHandlers_filter (e : String) :
    ∀ (hs : List Nat) (bus : List (String × List Nat)) (L : List Nat) (B : Nat),
    mget bus e = some L → L.Nodup → B ∈ L → B ∉ hs →
    mget (unregHandlers e hs bus) e = some (L.filter (fun x => decide (x ∉ hs)))
  | [], bus, L, B, hget, hnd, hB, _ => by
    simp only [unregHandlers]
    rw [hget]
    congr 1
    symm
    exact List.filter_eq_self.mpr (fun b hb => by simp)
  | h :: rest, bus, L, B, hget, hnd, hB, hBh => by
    have hBne : B ≠ h := fun hc => hBh (by simp [hc])
    have hBrest : B ∉ rest := fun hc => hBh (by simp [hc])
    simp only [unregHandlers, busRemove, hget]
    rw [nodup_removeFirstEq_eq_filter hnd]
    have hBfilter : B ∈ L.filter (fun x => decide (x ≠ h)) :=
      List.mem_filter.mpr ⟨hB, by simp [hBne]⟩
    have hne : ¬ (L.filter (fun x => decide (x ≠ h)) = []) := by
      intro hc
      rw [hc] at hBfilter
      exact absurd hBfilter (by simp)
    simp only [if_neg hne]
    have hrec := unregHandlers_filter e rest (mset bus e (L.filter (fun x => decide (x ≠ h))))
      (L.filter (fun x => decide (x ≠ h))) B (mget_mset_self _ _ _)
      (List.Nodup.filter _ hnd) hBfilter hBrest
    rw [hrec]
    congr 1
    rw [List.filter_filter]
    exact List.filter_congr (fun x hx => by
      by_cases h1 : x = h <;> by_cases h2 : x ∈ rest <;> simp [h1, h2])

theorem mget_mupdate_some [DecidableEq κ] {m : List (κ × α)} {j : κ} {v : α}
    (h : mget m j = some v) (k : κ) (f : α → α) :
    ∃ v', mget (mupdate m k f) j = some v' := by
  by_cases hjk : j = k
  · subst hjk
    rw [mget_mupdate_self, h]
    exact ⟨f v, rfl⟩
  · rw [mget_mupdate_ne _ hjk]
    exact ⟨v, h⟩

theorem registerPluginComponents_preserves_some {w : World} {pl : Plugin} {n : Nat}
    {j : String} {st : PluginState} (h : mget w.mgr.plugins j = some st) :
    ∃ st', mget ((registerPluginComponents w pl n).1).mgr.plugins j = some st' := by
  rw [registerPluginComponents]
  cases hfind : findPluginEntry w.mgr pl with
  | none => exact ⟨st, h⟩
  | some p =>
    obtain ⟨k, st0⟩ := p
    exact mget_mupdate_some h k _

/-- A `loadPlugin` call that returns success leaves the record `LOADED`. -/
theorem loadPlugin_ok_status {w w1 : World} {pid : String} {force : Bool} {n : Nat}
    (h : loadPlugin w pid force n = (w1, Except.ok ())) :
    ∃ st1, mget w1.mgr.plugins pid = some st1 ∧ st1.status = PluginStatus.loaded := by
  cases hget : mget w.mgr.plugins pid with
  | none =>
    simp only [loadPlugin, hget] at h
    simp at h
  | some st =>
    by_cases hc1 : st.status = PluginStatus.loaded ∧ force = false
    · simp only [loadPlugin, hget, if_pos hc1] at h
      injection h with h1 h2
      subst h1
      exact ⟨st, hget, hc1.1⟩
    · by_cases hc2 : (st.status ≠ PluginStatus.ready ∧ st.status ≠ PluginStatus.unloaded) ∧ force = false
      · simp only [loadPlugin, hget, if_neg hc1, if_pos hc2] at h
        simp at h
      · cases hpl : st.plugin with
        | none =>
          simp only [loadPlugin, hget, if_neg hc1, if_neg hc2, hpl] at h
          simp at h
        | some pl =>
          cases hio : initOutcome pl with
          | some e =>
            simp only [loadPlugin, hget, if_neg hc1, if_neg hc2, hpl, hio] at h
            simp at h
          | none =>
            cases hreg : registerPluginComponents w pl n with
            | mk w' r =>
              cases r with
              | error e =>
                simp only [loadPlugin, hget, if_neg hc1, if_neg hc2, hpl, hio, hreg] at h
                simp at h
              | ok u =>
                simp only [loadPlugin, hget, if_neg hc1, if_neg hc2, hpl, hio, hreg] at h
                obtain ⟨st', hst'⟩ :=
                  @registerPluginComponents_preserves_some w pl n pid st hget
                rw [hreg] at hst'
                injection h with h1 h2
                subst h1
                refine ⟨{ st' with status := PluginStatus.loaded, loadedAt := some n, error := none }, ?_, rfl⟩
                dsimp only
                rw [mget_mupdate_self, hst']
                rfl

/-- A `loadPlugin` call on a record that is already `LOADED`, without `force`,
is a no-op success. -/
theorem loadPlugin_noop {w : World} {pid : String} {st : PluginState} {n : Nat}
    (hget : mget w.mgr.plugins pid = some st) (hst : st.status = PluginStatus.loaded) :
    loadPlugin w pid false n = (w, Except.ok ()) := by
  simp only [loadPlugin, hget]
  simp [hst]

/-- C3: for every plugin id `p` whose record exists, `loadPlugin(p)` followed
immediately by `loadPlugin(p)` without `force` is idempotent: whenever the
first call succeeds, the second call is a no-op success (it returns success
and changes nothing at all) and the record's status remains `LOADED`. -/
theorem C3_load_idempotent (w w1 : World) (pid : String) (n1 n2 : Nat)
    (h : loadPlugin w pid false n1 = (w1, Except.ok ())) :
    loadPlugin w1 pid false n2 = (w1, Except.ok ()) ∧
    ∃ st1, mget w1.mgr.plugins pid = some st1 ∧ st1.status = PluginStatus.loaded := by
  obtain ⟨st1, hget1, hst1⟩ := loadPlugin_ok_status h
  exact ⟨loadPlugin_noop hget1 hst1, st1, hget1, hst1⟩

theorem C3_load_idempotent_witness :
    loadPlugin (loadPlugin (registerPlugin worldEmpty exPluginA 1).1 "A" false 2).1 "A" false 3 =
      ((loadPlugin (registerPlugin worldEmpty exPluginA 1).1 "A" false 2).1, Except.ok ()) ∧
    ∃ st1, mget ((loadPlugin (registerPlugin worldEmpty exPluginA 1).1 "A" false 2).1).mgr.plugins "A" =
      some st1 ∧ st1.status = PluginStatus.loaded :=
  C3_load_idempotent (registerPlugin worldEmpty exPluginA 1).1
    (loadPlugin (registerPlugin worldEmpty exPluginA 1).1 "A" false 2).1 "A" 2 3 (by decide)

/-- A plugin whose `init` hook throws, registered as a dynamic plugin. -/
def exPluginBad : Plugin := { name := "bad", initResult := some (some "boom") }

/-- C6: for every plugin id with an existing record and plugin instance, an
exception thrown while running the plugin's init hook during `loadPlugin`
sets the record's status to `ERROR`, stores the captured message in the
record's `error` field, and re-raises the same error to the caller. -/
theorem C6_load_error_path (w : World) (pid : String) (st : PluginState) (pl : Plugin)
    (e : String) (n : Nat)
    (hget : mget w.mgr.plugins pid = some st)
    (hpl : st.plugin = some pl)
    (hst : st.status = PluginStatus.ready ∨ st.status = PluginStatus.unloaded)
    (hinit : initOutcome pl = some e) :
    loadPlugin w pid false n = (setRecError w pid e, Except.error e) ∧
    ∃ st', mget (setRecError w pid e).mgr.plugins pid = some st' ∧
      st'.status = PluginStatus.error ∧ st'.error = some e := by
  have hc1 : ¬ (st.status = PluginStatus.loaded ∧ True) := by
    rcases hst with h | h <;> simp [h]
  have hc2 : ¬ ((st.status ≠ PluginStatus.ready ∧ st.status ≠ PluginStatus.unloaded) ∧ True) := by
    rcases hst with h | h <;> simp [h]
  constructor
  · simp only [loadPlugin, hget, if_neg hc1, if_neg hc2, hpl, hinit]
  · refine ⟨{ st with status := PluginStatus.error, error := some e }, ?_, rfl, rfl⟩
    simp only [setRecError]
    rw [mget_mupdate_self, hget]
    rfl

theorem C6_load_error_path_witness :
    loadPlugin (registerPlugin worldEmpty exPluginBad 1).1 "bad" false 2 =
      (setRecError (registerPlugin worldEmpty exPluginBad 1).1 "bad" "boom", Except.error "boom") ∧
    ∃ st', mget (setRecError (registerPlugin worldEmpty exPluginBad 1).1 "bad" "boom").mgr.plugins "bad" =
      some st' ∧ st'.status = PluginStatus.error ∧ st'.error = some "boom" :=
  C6_load_error_path _ "bad"
    { id := "bad", name := "bad", status := PluginStatus.ready, plugin := some exPluginBad, createdAt := 1 }
    exPluginBad "boom" 2 (by decide) (by decide) (Or.inl (by decide)) (by decide)

/-- C4 counterexample: the status check of `unloadPlugin` runs before the
original-plugin check, so an original plugin whose record is currently in
`ERROR` (reached here by force-loading it while its init hook throws) gets a
no-op success from `unloadPlugin`, not the `ProtectedPlugin` failure the claim
demands for every call regardless of the record's current status. -/
theorem C4_protected_counterexample :
    isOriginalPluginName exC4ErrWorld.mgr "orig" = true ∧
    (mget exC4ErrWorld.mgr.plugins "orig").map (fun st => st.status) = some PluginStatus.error ∧
    (unloadPlugin exC4ErrWorld "orig" 2).2 = Except.ok () ∧
    unloadPlugin exC4ErrWorld "orig" 2 = (exC4ErrWorld, Except.ok ()) := by
  decide

/-- C4 (amended): for every original plugin, every `unloadPlugin` call made
while the record's status is `LOADED` fails with the `ProtectedPlugin` error
and changes nothing; when the status is not `LOADED` the call is a no-op
success instead. -/
theorem C4_protected_amended (w : World) (pid : String) (st : PluginState) (n : Nat)
    (hget : mget w.mgr.plugins pid = some st)
    (hst : st.status = PluginStatus.loaded)
    (horig : isOriginalPluginName w.mgr st.name = true) :
    unloadPlugin w pid n = (w, Except.error ("Cannot unload original plugin " ++ st.name)) := by
  have hc1 : ¬ (st.status ≠ PluginStatus.loaded) := by simp [hst]
  simp only [unloadPlugin, hget, if_neg hc1, horig, if_true]

theorem C4_protected_amended_witness :
    unloadPlugin exC4World "orig" 1 =
      (exC4World, Except.error ("Cannot unload original plugin " ++
        (origRecord "orig" exPluginOrig 0).name)) :=
  C4_protected_amended exC4World "orig" (origRecord "orig" exPluginOrig 0) 1
    (by decide) (by decide) (by decide)

/-- C1 counterexample: plugins `A` and `B` are both dynamically loaded and both
declare action `x` (which is not an original action name).  `unloadPlugin(A)`
succeeds, yet `x` is still present in the host action registry afterwards,
because unregistration splices out only the first matching entry: the claim's
"if `n` is not in the original set, `n` is removed from the host action
registry" is false at this input. -/
theorem C1_collision_counterexample :
    "x" ∈ exPluginA.actions ∧
    "x" ∉ exC1World.mgr.originalActions ∧
    (unloadPlugin exC1World "A" 4).2 = Except.ok () ∧
    "x" ∈ ((unloadPlugin exC1World "A" 4).1).rt.actions := by
  decide

/-- C1 (amended): after a successful `unloadPlugin(P)`, an action name `n`
declared by `P` that is in the original set keeps its registry occurrence
count unchanged (it is never removed); a declared name outside the original
set has one registry occurrence removed per declaration by `P` (first match
each time), so it disappears from the registry only when no other occurrence
- such as one registered by another loaded plugin - remains. -/
theorem C1_unload_action_amended (w : World) (pid k : String) (st : PluginState)
    (pl : Plugin) (nm : String) (n : Nat)
    (hget : mget w.mgr.plugins pid = some st)
    (hst : st.status = PluginStatus.loaded)
    (horig : isOriginalPluginName w.mgr st.name = false)
    (hpl : st.plugin = some pl)
    (hfind : findPluginEntry w.mgr pl = some (k, st))
    (hmem : nm ∈ pl.actions) :
    (unloadPlugin w pid n).2 = Except.ok () ∧
    (nm ∈ w.mgr.originalActions →
      countEq nm (unloadPlugin w pid n).1.rt.actions = countEq nm w.rt.actions) ∧
    (nm ∉ w.mgr.originalActions →
      countEq nm (unloadPlugin w pid n).1.rt.actions =
        countEq nm w.rt.actions - countEq nm pl.actions) := by
  have hc1 : ¬ (st.status ≠ PluginStatus.loaded) := by simp [hst]
  refine ⟨?_, ?_, ?_⟩
  · simp only [unloadPlugin, hget, if_neg hc1, horig, Bool.false_eq_true, if_false, hpl,
      unregisterPluginComponents, hfind]
  · intro hin
    simp only [unloadPlugin, hget, if_neg hc1, horig, Bool.false_eq_true, if_false, hpl,
      unregisterPluginComponents, hfind]
    exact unregList_count_orig w.mgr.originalActions hin pl.actions w.rt.actions
      st.components.actions
  · intro hout
    simp only [unloadPlugin, hget, if_neg hc1, horig, Bool.false_eq_true, if_false, hpl,
      unregisterPluginComponents, hfind]
    exact unregList_count_not_orig w.mgr.originalActions hout pl.actions w.rt.actions
      st.components.actions

/-- The record plugin `A` holds in `exC1World`. -/
def exC1StateA : PluginState :=
  (mget exC1World.mgr.plugins "A").getD { id := "", name := "", status := PluginStatus.error }

theorem C1_unload_action_witness :
    (unloadPlugin exC1World "A" 4).2 = Except.ok () ∧
    ("x" ∈ exC1World.mgr.originalActions →
      countEq "x" (unloadPlugin exC1World "A" 4).1.rt.actions =
        countEq "x" exC1World.rt.actions) ∧
    ("x" ∉ exC1World.mgr.originalActions →
      countEq "x" (unloadPlugin exC1World "A" 4).1.rt.actions =
        countEq "x" exC1World.rt.actions - countEq "x" exPluginA.actions) :=
  C1_unload_action_amended exC1World "A" "A" exC1StateA exPluginA "x" 4
    (by decide) (by decide) (by decide) (by decide) (by decide) (by decide)

/-- C5: the registry fetch path never raises (the embedded
`getAvailablePluginsFromRegistry` is a total function); for every sequence of
prior fetch outcomes, a call whose own fetch fails returns the previously
cached catalog when some prior fetch succeeded (the cache is non-empty), and
the empty catalog when no fetch ever succeeded. -/
theorem C5_registry_fallback (trace : List (Nat × Except String Catalog)) (now : Nat)
    (e : String) :
    ((∀ s ∈ trace, ∃ msg, s.2 = Except.error msg) →
      (getAvailablePluginsFromRegistry (runRegistry none trace) now (Except.error e)).2 = []) ∧
    (∀ c, runRegistry none trace = some c →
      (getAvailablePluginsFromRegistry (runRegistry none trace) now (Except.error e)).2 = c.data) := by
  constructor
  · intro hall
    have hnone : runRegistry none trace = none := by
      clear now e
      induction trace with
      | nil => rfl
      | cons s rest ih =>
        obtain ⟨t, o⟩ := s
        obtain ⟨msg, hmsg⟩ := hall (t, o) (by simp)
        simp only at hmsg
        subst hmsg
        simp only [runRegistry, getLocalRegistryIndex]
        exact ih (fun q hq => hall q (by simp [hq]))
    rw [hnone]
    rfl
  · intro c hc
    rw [hc]
    simp only [getAvailablePluginsFromRegistry, getLocalRegistryIndex]
    by_cases hfresh : now - c.timestamp < CACHE_DURATION
    · rw [if_pos hfresh]
    · rw [if_neg hfresh]

theorem C5_registry_fallback_witness :
    ((getAvailablePluginsFromRegistry
        (runRegistry none [(0, Except.error "down")]) 5 (Except.error "down")).2 = ([] : Catalog)) ∧
    ((getAvailablePluginsFromRegistry
        (runRegistry none [(0, Except.ok [("p", { name := "p" })])]) 5 (Except.error "down")).2 =
      [("p", { name := "p" })]) :=
  ⟨(C5_registry_fallback [(0, Except.error "down")] 5 "down").1
      (by intro s hs; simp only [List.mem_singleton] at hs; subst hs; exact ⟨"down", rfl⟩),
   (C5_registry_fallback [(0, Except.ok [("p", { name := "p" })])] 5 "down").2
      ⟨[("p", { name := "p" })], 0⟩ (by decide)⟩

theorem installedInfoOf_status (pj : PackageJson) (dir : String) (now : Nat) :
    ((installedInfoOf (parsePluginMetadata pj) dir now).status = InstallStatus.needsConfiguration ↔
      ∃ v ∈ (installedInfoOf (parsePluginMetadata pj) dir now).requiredEnvVars, v.isSet = false) ∧
    ((installedInfoOf (parsePluginMetadata pj) dir now).status = InstallStatus.needsConfiguration ∨
      (installedInfoOf (parsePluginMetadata pj) dir now).status = InstallStatus.installed) := by
  have hunset : ∀ v ∈ (parsePluginMetadata pj).requiredEnvVars, v.isSet = false := by
    intro v hv
    simp only [parsePluginMetadata, List.mem_map] at hv
    obtain ⟨q, _, rfl⟩ := hv
    rfl
  by_cases hl : (parsePluginMetadata pj).requiredEnvVars.length > 0
  · constructor
    · constructor
      · intro _
        obtain ⟨v, hv⟩ : ∃ v, v ∈ (parsePluginMetadata pj).requiredEnvVars := by
          cases hmd : (parsePluginMetadata pj).requiredEnvVars with
          | nil => rw [hmd] at hl; simp at hl
          | cons v rest => exact ⟨v, by simp [hmd]⟩
        exact ⟨v, by simpa [installedInfoOf] using hv, hunset v hv⟩
      · intro _
        simp [installedInfoOf, hl]
    · left
      simp [installedInfoOf, hl]
  · constructor
    · constructor
      · intro hcontra
        simp [installedInfoOf, hl] at hcontra
      · intro ⟨v, hv, _⟩
        simp only [installedInfoOf] at hv
        have : (parsePluginMetadata pj).requiredEnvVars.length > 0 :=
          List.length_pos.mpr (fun hnil => by rw [hnil] at hv; simp at hv)
        exact absurd this hl
    · right
      simp [installedInfoOf, hl]

/-- C7: an install (from the registry or from a local bundle) produces a
record whose status is `needs_configuration` exactly when the manifest
declares at least one required configuration variable that is unset (every
parsed variable is unset), and `installed` otherwise; and
`loadInstalledPlugin` on a record still needing configuration fails with the
`ConfigurationRequired` error before loading or registering anything (the
state is unchanged). -/
theorem C7_needs_configuration (m : Manager) (dir pluginName : String) (pj : PackageJson)
    (now : Nat) (w : World) (nm : String) (info : DynamicPluginInfo) (mod : Option Plugin)
    (n2 : Nat) :
    (∀ m1 i, installPluginFromRegistry m dir pluginName (Except.ok pj) now = (m1, Except.ok i) →
      ((i.status = InstallStatus.needsConfiguration ↔
          ∃ v ∈ i.requiredEnvVars, v.isSet = false) ∧
        (i.status = InstallStatus.needsConfiguration ∨ i.status = InstallStatus.installed) ∧
        mget m1.installedPlugins pluginName = some i)) ∧
    (∀ bundlePath m2 i,
      installFromLocalBundle m dir bundlePath true true pj now = (m2, Except.ok i) →
      ((i.status = InstallStatus.needsConfiguration ↔
          ∃ v ∈ i.requiredEnvVars, v.isSet = false) ∧
        (i.status = InstallStatus.needsConfiguration ∨ i.status = InstallStatus.installed) ∧
        mget m2.installedPlugins (parsePluginMetadata pj).name = some i)) ∧
    (mget w.mgr.installedPlugins nm = some info →
      info.status = InstallStatus.needsConfiguration →
      loadInstalledPlugin w nm mod n2 =
        (w, Except.error ("Plugin " ++ nm ++ " requires configuration before loading"))) := by
  refine ⟨?_, ?_, ?_⟩
  · intro m1 i h
    simp only [installPluginFromRegistry] at h
    injection h with h1 h2
    injection h2 with h2
    subst h1
    subst h2
    refine ⟨(installedInfoOf_status pj _ now).1, (installedInfoOf_status pj _ now).2, ?_⟩
    exact mget_mset_self _ _ _
  · intro bundlePath m2 i h
    simp only [installFromLocalBundle] at h
    injection h with h1 h2
    injection h2 with h2
    subst h1
    subst h2
    refine ⟨(installedInfoOf_status pj _ now).1, (installedInfoOf_status pj _ now).2, ?_⟩
    exact mget_mset_self _ _ _
  · intro hget hstatus
    simp only [loadInstalledPlugin, hget, if_pos hstatus]

/-- The manifest of the C7 scenario: it declares the single required variable
`API_KEY`, which is unset. -/
def exPjKey : PackageJson :=
  { name := some "pkg-a", version := some "1.0.0",
    requiredEnvVarsCfg := [("API_KEY", "api key", true)] }

def exC7Info : DynamicPluginInfo :=
  installedInfoOf (parsePluginMetadata exPjKey) (getPluginInstallPath "./plugins" "pkg-a") 0

def exC7World : World := ⟨{ installedPlugins := [("pkg-a", exC7Info)] }, {}⟩

theorem C7_needs_configuration_witness :
    ((exC7Info.status = InstallStatus.needsConfiguration ↔
        ∃ v ∈ exC7Info.requiredEnvVars, v.isSet = false) ∧
      (exC7Info.status = InstallStatus.needsConfiguration ∨
        exC7Info.status = InstallStatus.installed) ∧
      mget ((installPluginFromRegistry {} "./plugins" "pkg-a" (Except.ok exPjKey) 0).1).installedPlugins
        "pkg-a" = some exC7Info) ∧
    loadInstalledPlugin exC7World "pkg-a" none 1 =
      (exC7World, Except.error ("Plugin " ++ "pkg-a" ++ " requires configuration before loading")) :=
  ⟨(C7_needs_configuration {} "./plugins" "pkg-a" exPjKey 0 exC7World "pkg-a" exC7Info none 1).1
      (installPluginFromRegistry {} "./plugins" "pkg-a" (Except.ok exPjKey) 0).1 exC7Info
      (by rfl),
   (C7_needs_configuration {} "./plugins" "pkg-a" exPjKey 0 exC7World "pkg-a" exC7Info none 1).2.2
      (by rfl) (by decide)⟩

/-- C10: `installPluginFromRegistry` stores the produced record under the
requested registry-name argument even when the installed artifact's manifest
declares a different name, while `installFromLocalBundle` stores it under the
manifest-declared name; lookups (`getInstalledPluginInfo`,
`loadInstalledPlugin`) therefore succeed only under the registry name in the
first case and only under the manifest name in the second. -/
theorem C10_install_record_key (m : Manager) (dir regName bundlePath : String)
    (pj : PackageJson) (now : Nat) (rt : HostRuntime) (mod : Option Plugin) (n2 : Nat)
    (hne : regName ≠ (parsePluginMetadata pj).name)
    (hfresh : mget m.installedPlugins (parsePluginMetadata pj).name = none)
    (hfresh2 : mget m.installedPlugins regName = none) :
    (∃ i, getInstalledPluginInfo
        (installPluginFromRegistry m dir regName (Except.ok pj) now).1 regName = some i ∧
      i.name = (parsePluginMetadata pj).name) ∧
    getInstalledPluginInfo (installPluginFromRegistry m dir regName (Except.ok pj) now).1
      (parsePluginMetadata pj).name = none ∧
    (loadInstalledPlugin ⟨(installPluginFromRegistry m dir regName (Except.ok pj) now).1, rt⟩
        (parsePluginMetadata pj).name mod n2).2 =
      Except.error ("Plugin " ++ (parsePluginMetadata pj).name ++ " is not installed") ∧
    (∃ i, getInstalledPluginInfo (installFromLocalBundle m dir bundlePath true true pj now).1
        (parsePluginMetadata pj).name = some i) ∧
    getInstalledPluginInfo (installFromLocalBundle m dir bundlePath true true pj now).1
      regName = none := by
  have hmdne : (parsePluginMetadata pj).name ≠ regName := fun h => hne h.symm
  have h1 : getInstalledPluginInfo (installPluginFromRegistry m dir regName (Except.ok pj) now).1
      (parsePluginMetadata pj).name = none := by
    simp only [installPluginFromRegistry, getInstalledPluginInfo]
    rw [mget_mset_ne _ hmdne]
    exact hfresh
  have hcond : ¬ ((true : Bool) = false) := by decide
  refine ⟨?_, h1, ?_, ?_, ?_⟩
  · refine ⟨installedInfoOf (parsePluginMetadata pj) (getPluginInstallPath dir regName) now,
      ?_, rfl⟩
    simp only [installPluginFromRegistry, getInstalledPluginInfo]
    exact mget_mset_self _ _ _
  · have h1' := h1
    simp only [getInstalledPluginInfo] at h1'
    simp only [loadInstalledPlugin, h1']
  · refine ⟨installedInfoOf (parsePluginMetadata pj)
      (getPluginInstallPath dir (parsePluginMetadata pj).name) now, ?_⟩
    simp only [installFromLocalBundle, getInstalledPluginInfo, if_neg hcond]
    exact mget_mset_self _ _ _
  · simp only [installFromLocalBundle, getInstalledPluginInfo, if_neg hcond]
    rw [mget_mset_ne _ hne]
    exact hfresh2

/-- The manifest of the C10 scenario: its declared name differs from the
requested registry name. -/
def exPjMismatch : PackageJson := { name := some "actual", version := some "1.0.0" }

theorem C10_install_record_key_witness :
    (∃ i, getInstalledPluginInfo
        (installPluginFromRegistry {} "./plugins" "requested" (Except.ok exPjMismatch) 0).1
        "requested" = some i ∧ i.name = (parsePluginMetadata exPjMismatch).name) ∧
    getInstalledPluginInfo
      (installPluginFromRegistry {} "./plugins" "requested" (Except.ok exPjMismatch) 0).1
      (parsePluginMetadata exPjMismatch).name = none ∧
    (loadInstalledPlugin
        ⟨(installPluginFromRegistry {} "./plugins" "requested" (Except.ok exPjMismatch) 0).1, {}⟩
        (parsePluginMetadata exPjMismatch).name none 1).2 =
      Except.error ("Plugin " ++ (parsePluginMetadata exPjMismatch).name ++ " is not installed") ∧
    (∃ i, getInstalledPluginInfo
        (installFromLocalBundle {} "./plugins" "/tmp/bundle" true true exPjMismatch 0).1
        (parsePluginMetadata exPjMismatch).name = some i) ∧
    getInstalledPluginInfo
      (installFromLocalBundle {} "./plugins" "/tmp/bundle" true true exPjMismatch 0).1
      "requested" = none :=
  C10_install_record_key {} "./plugins" "requested" "/tmp/bundle" exPjMismatch 0 {} none 1
    (by decide) (by decide) (by decide)

theorem exists_mget_mupdate [DecidableEq κ] {m : List (κ × α)} {k : κ} {v : α}
    (h : mget m k = some v) (f : α → α) (P : α → Prop) (hP : P (f v)) :
    ∃ v', mget (mupdate m k f) k = some v' ∧ P v' :=
  ⟨f v, by rw [mget_mupdate_self, h]; rfl, hP⟩

/-- C9: during component registration, a declared background service whose
start throws is logged and skipped - its type enters neither the host service
table nor the plugin's component set - while registration of everything else
still completes: the actions are all registered, the services that do start
are installed, and the plugin object is appended to the host's active-plugins
list; the whole call still succeeds. -/
theorem C9_service_start_failure (w : World) (pl : Plugin) (k : String) (st : PluginState)
    (s : ServiceDecl) (now : Nat)
    (hfind : findPluginEntry w.mgr pl = some (k, st))
    (hget : mget w.mgr.plugins k = some st)
    (hmem : s ∈ pl.services)
    (hfail : s.startFails = true)
    (htab : s.serviceType ∉ w.rt.services)
    (hcomp : s.serviceType ∉ st.components.services)
    (huniq : ∀ s' ∈ pl.services, s'.serviceType = s.serviceType → s'.startFails = true) :
    (registerPluginComponents w pl now).2 = Except.ok () ∧
    s.serviceType ∉ ((registerPluginComponents w pl now).1).rt.services ∧
    (∃ st', mget ((registerPluginComponents w pl now).1).mgr.plugins k = some st' ∧
      s.serviceType ∉ st'.components.services) ∧
    pl ∈ ((registerPluginComponents w pl now).1).rt.plugins ∧
    ((registerPluginComponents w pl now).1).rt.actions = w.rt.actions ++ pl.actions ∧
    (∀ s' ∈ pl.services, s'.startFails = false →
      s'.serviceType ∈ ((registerPluginComponents w pl now).1).rt.services) := by
  refine ⟨?_, ?_, ?_, ?_, ?_, ?_⟩
  · simp only [registerPluginComponents, hfind]
  · simp only [registerPluginComponents, hfind]
    exact regServices_not_mem_tab st.id now pl.services _ _ _ _ htab huniq
  · simp only [registerPluginComponents, hfind]
    exact exists_mget_mupdate hget _ _
      (regServices_not_mem_comp st.id now pl.services _ _ _ _ hcomp huniq)
  · simp only [registerPluginComponents, hfind]
    simp
  · simp only [registerPluginComponents, hfind]
    rw [regList_spec]
  · intro s' hs' hok
    simp only [registerPluginComponents, hfind]
    exact regServices_success_mem st.id now pl.services _ _ _ s' hs' hok

/-- A plugin declaring one service whose start throws and one that starts. -/
def exPluginSvc : Plugin :=
  { name := "S", actions := ["a1"],
    services := [{ serviceType := "svcFail", startFails := true },
                 { serviceType := "svcOk", startFails := false }] }

def exC9World : World := (registerPlugin worldEmpty exPluginSvc 1).1

def exC9State : PluginState :=
  { id := "S", name := "S", status := PluginStatus.ready, plugin := some exPluginSvc,
    createdAt := 1 }

theorem C9_service_start_failure_witness :
    (registerPluginComponents exC9World exPluginSvc 2).2 = Except.ok () ∧
    "svcFail" ∉ ((registerPluginComponents exC9World exPluginSvc 2).1).rt.services ∧
    (∃ st', mget ((registerPluginComponents exC9World exPluginSvc 2).1).mgr.plugins "S" =
      some st' ∧ "svcFail" ∉ st'.components.services) ∧
    exPluginSvc ∈ ((registerPluginComponents exC9World exPluginSvc 2).1).rt.plugins ∧
    ((registerPluginComponents exC9World exPluginSvc 2).1).rt.actions =
      exC9World.rt.actions ++ exPluginSvc.actions ∧
    (∀ s' ∈ exPluginSvc.services, s'.startFails = false →
      s'.serviceType ∈ ((registerPluginComponents exC9World exPluginSvc 2).1).rt.services) :=
  C9_service_start_failure exC9World exPluginSvc "S" exC9State
    { serviceType := "svcFail", startFails := true } 2
    (by decide) (by decide) (by decide) (by decide) (by decide) (by decide) (by decide)

/-- C8: for two loaded plugins `A` and `B` that each registered a handler
under the same event name, `unloadPlugin(A)` succeeds and removes exactly
`A`'s handler references from that event on the host bus - the remaining
handler list is the old list minus `A`'s handlers, so `B`'s handler is still
registered - and clears `A`'s `eventHandlers` map. -/
theorem C8_event_handler_isolation (w : World) (idA idB : String) (stA stB : PluginState)
    (plA : Plugin) (e : String) (lA L : List Nat) (hB : Nat) (n : Nat)
    (hgetA : mget w.mgr.plugins idA = some stA)
    (hstA : stA.status = PluginStatus.loaded)
    (horig : isOriginalPluginName w.mgr stA.name = false)
    (hplA : stA.plugin = some plA)
    (hfind : findPluginEntry w.mgr plA = some (idA, stA))
    (hEH : stA.components.eventHandlers = [(e, lA)])
    (hbusL : mget w.rt.events e = some L)
    (hLnd : L.Nodup)
    (hgetB : mget w.mgr.plugins idB = some stB)
    (hstB : stB.status = PluginStatus.loaded)
    (hBowns : hB ∈ (mget stB.components.eventHandlers e).getD [])
    (hBbus : hB ∈ L)
    (hBnotA : hB ∉ lA) :
    (unloadPlugin w idA n).2 = Except.ok () ∧
    mget ((unloadPlugin w idA n).1).rt.events e =
      some (L.filter (fun x => decide (x ∉ lA))) ∧
    hB ∈ L.filter (fun x => decide (x ∉ lA)) ∧
    (∀ h ∈ lA, h ∉ L.filter (fun x => decide (x ∉ lA))) ∧
    (∃ stA', mget ((unloadPlugin w idA n).1).mgr.plugins idA = some stA' ∧
      stA'.components.eventHandlers = []) := by
  have hc1 : ¬ (stA.status ≠ PluginStatus.loaded) := by simp [hstA]
  refine ⟨?_, ?_, ?_, ?_, ?_⟩
  · simp only [unloadPlugin, hgetA, if_neg hc1, horig, Bool.false_eq_true, if_false, hplA,
      unregisterPluginComponents, hfind]
  · simp only [unloadPlugin, hgetA, if_neg hc1, horig, Bool.false_eq_true, if_false, hplA,
      unregisterPluginComponents, hfind]
    rw [hEH]
    simp only [unregEvents]
    exact unregHandlers_filter e lA w.rt.events L hB hbusL hLnd hBbus hBnotA
  · exact List.mem_filter.mpr ⟨hBbus, by simp [hBnotA]⟩
  · intro h hh hmem
    have := List.mem_filter.mp hmem
    simp only [decide_eq_true_eq] at this
    exact this.2 hh
  · simp only [unloadPlugin, hgetA, if_neg hc1, horig, Bool.false_eq_true, if_false, hplA,
      unregisterPluginComponents, hfind]
    have hmid : mget (mupdate w.mgr.plugins idA
        (fun r => { r with components :=
          ⟨(unregList w.mgr.originalActions plA.actions (w.rt.actions, stA.components.actions)).2,
           (unregList w.mgr.originalProviders plA.providers (w.rt.providers, stA.components.providers)).2,
           (unregList w.mgr.originalEvaluators plA.evaluators (w.rt.evaluators, stA.components.evaluators)).2,
           (unregServices w.mgr.originalServices plA.services (w.rt.services, stA.components.services)).2,
           []⟩ })) idA =
        some { stA with components :=
          ⟨(unregList w.mgr.originalActions plA.actions (w.rt.actions, stA.components.actions)).2,
           (unregList w.mgr.originalProviders plA.providers (w.rt.providers, stA.components.providers)).2,
           (unregList w.mgr.originalEvaluators plA.evaluators (w.rt.evaluators, stA.components.evaluators)).2,
           (unregServices w.mgr.originalServices plA.services (w.rt.services, stA.components.services)).2,
           []⟩ } := by
      rw [mget_mupdate_self, hgetA]
      rfl
    exact exists_mget_mupdate hmid _ _ rfl

/-- Plugin `EA` registering handler `1` under event `evt`. -/
def exPluginEvA : Plugin := { name := "EA", events := [("evt", [1])] }

/-- Plugin `EB` registering handler `2` under the same event `evt`. -/
def exPluginEvB : Plugin := { name := "EB", events := [("evt", [2])] }

/-- Both event plugins registered and loaded. -/
def exC8World : World :=
  (loadPlugin
    (loadPlugin
      ((registerPlugin ((registerPlugin worldEmpty exPluginEvA 1).1) exPluginEvB 1).1)
      "EA" false 2).1
    "EB" false 3).1

def exC8StateA : PluginState :=
  (mget exC8World.mgr.plugins "EA").getD { id := "", name := "", status := PluginStatus.error }

def exC8StateB : PluginState :=
  (mget exC8World.mgr.plugins "EB").getD { id := "", name := "", status := PluginStatus.error }

theorem C8_event_handler_isolation_witness :
    (unloadPlugin exC8World "EA" 4).2 = Except.ok () ∧
    mget ((unloadPlugin exC8World "EA" 4).1).rt.events "evt" =
      some (([1, 2] : List Nat).filter (fun x => decide (x ∉ ([1] : List Nat)))) ∧
    2 ∈ ([1, 2] : List Nat).filter (fun x => decide (x ∉ ([1] : List Nat))) ∧
    (∀ h ∈ ([1] : List Nat), h ∉ ([1, 2] : List Nat).filter (fun x => decide (x ∉ ([1] : List Nat)))) ∧
    (∃ stA', mget ((unloadPlugin exC8World "EA" 4).1).mgr.plugins "EA" = some stA' ∧
      stA'.components.eventHandlers = []) :=
  C8_event_handler_isolation exC8World "EA" "EB" exC8StateA exC8StateB exPluginEvA "evt"
    [1] [1, 2] 2 4
    (by decide) (by decide) (by decide) (by decide) (by decide) (by decide) (by decide)
    (by decide) (by decide) (by decide) (by decide) (by decide) (by decide)

theorem mdel_mset_none [DecidableEq κ] {m : List (κ × α)} {k : κ}
    (h : mget m k = none) (v : α) : mdel (mset m k v) k = m := by
  rw [mset_absent h, mdel_append_front ((mget_eq_none_iff m k).mp h), mdel_cons_self,
    List.append_nil]

/-- C2: for a plugin object `P` not colliding with host state (fresh id, fresh
component names, no original-name collisions, well-formed component lists) the
sequence `registerPlugin(P)`, `loadPlugin`, `unloadPlugin` succeeds end to end
and leaves every host-wide registry (actions, providers, evaluators, event
bus, service table, active-plugins list) exactly as before `loadPlugin`
(`registerPlugin` itself never touches the host registries, so this is
`w0.rt`), while `P`'s record persists in `UNLOADED` with empty component sets
and an empty `ComponentRegistration` audit trail. -/
theorem C2_round_trip (w0 : World) (P : Plugin) (n1 n2 n3 : Nat)
    (hid : mget w0.mgr.plugins (createUniqueUuid P.name) = none)
    (hnorec : ∀ pr ∈ w0.mgr.plugins, pr.2.plugin ≠ some P)
    (hactive : ∀ q ∈ w0.rt.plugins, q.name ≠ P.name)
    (horig : isOriginalPluginName w0.mgr P.name = false)
    (hreg0 : mget w0.mgr.componentRegistry (createUniqueUuid P.name) = none)
    (hactsnd : P.actions.Nodup)
    (hacts : ∀ a ∈ P.actions, a ∉ w0.rt.actions ∧ a ∉ w0.mgr.originalActions)
    (hprovnd : P.providers.Nodup)
    (hprovs : ∀ a ∈ P.providers, a ∉ w0.rt.providers ∧ a ∉ w0.mgr.originalProviders)
    (hevalnd : P.evaluators.Nodup)
    (hevals : ∀ a ∈ P.evaluators, a ∉ w0.rt.evaluators ∧ a ∉ w0.mgr.originalEvaluators)
    (hsvcnd : (P.services.map (fun s => s.serviceType)).Nodup)
    (hsvcs : ∀ s ∈ P.services, s.serviceType ∉ w0.rt.services ∧
      s.serviceType ∉ w0.mgr.originalServices)
    (hevnd : (P.events.map Prod.fst).Nodup)
    (hevs : ∀ pe ∈ P.events, (∀ p ∈ w0.rt.events, p.1 ≠ pe.1) ∧ pe.2.Nodup ∧ pe.2 ≠ [])
    (hinit : initOutcome P = none) :
    (registerPlugin w0 P n1).2 = Except.ok (createUniqueUuid P.name) ∧
    (loadPlugin (registerPlugin w0 P n1).1 (createUniqueUuid P.name) false n2).2 =
      Except.ok () ∧
    (unloadPlugin (loadPlugin (registerPlugin w0 P n1).1 (createUniqueUuid P.name) false n2).1
      (createUniqueUuid P.name) n3).2 = Except.ok () ∧
    (unloadPlugin (loadPlugin (registerPlugin w0 P n1).1 (createUniqueUuid P.name) false n2).1
      (createUniqueUuid P.name) n3).1.rt = w0.rt ∧
    (∃ st, mget (unloadPlugin (loadPlugin (registerPlugin w0 P n1).1
        (createUniqueUuid P.name) false n2).1 (createUniqueUuid P.name) n3).1.mgr.plugins
        (createUniqueUuid P.name) = some st ∧
      st.status = PluginStatus.unloaded ∧ st.plugin = some P ∧
      st.components = emptyComponents) ∧
    getComponentRegistrations (unloadPlugin (loadPlugin (registerPlugin w0 P n1).1
        (createUniqueUuid P.name) false n2).1 (createUniqueUuid P.name) n3).1.mgr
      (createUniqueUuid P.name) = [] := by
  have hkeys0 : ∀ p ∈ w0.mgr.plugins, p.1 ≠ createUniqueUuid P.name :=
    (mget_eq_none_iff _ _).mp hid
  have hregkeys0 : ∀ p ∈ w0.mgr.componentRegistry, p.1 ≠ createUniqueUuid P.name :=
    (mget_eq_none_iff _ _).mp hreg0
  have hskip : ∀ x ∈ w0.mgr.plugins,
      (fun pr => decide (pr.2.plugin = some P)) x = false := by
    intro x hx
    simp [hnorec x hx]
  have hfind_single : ∀ (k : String) (r : PluginState), r.plugin = some P →
      List.find? (fun pr => decide (pr.2.plugin = some P)) [(k, r)] = some (k, r) := by
    intro k r hr
    simp [List.find?, hr]
  have hfoldA : List.foldl (fun c n => addSet n c) [] P.actions = P.actions :=
    (foldl_addSet_fresh P.actions [] hactsnd (fun x _ => by simp)).trans (List.nil_append _)
  have hfoldP : List.foldl (fun c n => addSet n c) [] P.providers = P.providers :=
    (foldl_addSet_fresh P.providers [] hprovnd (fun x _ => by simp)).trans (List.nil_append _)
  have hfoldE : List.foldl (fun c n => addSet n c) [] P.evaluators = P.evaluators :=
    (foldl_addSet_fresh P.evaluators [] hevalnd (fun x _ => by simp)).trans (List.nil_append _)
  have hev1 : ∀ aud,
      (regEvents (createUniqueUuid P.name) n2 P.events (w0.rt.events, [], aud)).1 =
        w0.rt.events ++ P.events := by
    intro aud
    exact (regEvents_parts (createUniqueUuid P.name) n2 P.events w0.rt.events [] aud hevnd
      (fun pe hpe => ⟨(hevs pe hpe).2.1, (hevs pe hpe).2.2⟩)
      (fun pe hpe => (hevs pe hpe).1)
      (fun pe _ p hp => absurd hp (by simp))).1
  have hev2 : ∀ aud,
      (regEvents (createUniqueUuid P.name) n2 P.events (w0.rt.events, [], aud)).2.1 =
        P.events := by
    intro aud
    have := (regEvents_parts (createUniqueUuid P.name) n2 P.events w0.rt.events [] aud hevnd
      (fun pe hpe => ⟨(hevs pe hpe).2.1, (hevs pe hpe).2.2⟩)
      (fun pe hpe => (hevs pe hpe).1)
      (fun pe _ p hp => absurd hp (by simp))).2
    simpa using this
  have hsvc1 : ∀ aud,
      (regServices (createUniqueUuid P.name) n2 P.services (w0.rt.services, [], aud)).1 =
        w0.rt.services ++ sucTypes P.services := by
    intro aud
    exact (regServices_spec (createUniqueUuid P.name) n2 P.services w0.rt.services [] aud
      hsvcnd (fun s hs => (hsvcs s hs).1) (fun s _ => by simp)).1
  have hsvc2 : ∀ aud,
      (regServices (createUniqueUuid P.name) n2 P.services (w0.rt.services, [], aud)).2.1 =
        sucTypes P.services := by
    intro aud
    have := (regServices_spec (createUniqueUuid P.name) n2 P.services w0.rt.services [] aud
      hsvcnd (fun s hs => (hsvcs s hs).1) (fun s _ => by simp)).2
    simpa using this
  have hunregA : unregList w0.mgr.originalActions P.actions
      (w0.rt.actions ++ P.actions, P.actions) = (w0.rt.actions, []) :=
    unregList_restore _ P.actions w0.rt.actions hactsnd
      (fun n hn => (hacts n hn).2) (fun n hn => (hacts n hn).1)
  have hunregP : unregList w0.mgr.originalProviders P.providers
      (w0.rt.providers ++ P.providers, P.providers) = (w0.rt.providers, []) :=
    unregList_restore _ P.providers w0.rt.providers hprovnd
      (fun n hn => (hprovs n hn).2) (fun n hn => (hprovs n hn).1)
  have hunregE : unregList w0.mgr.originalEvaluators P.evaluators
      (w0.rt.evaluators ++ P.evaluators, P.evaluators) = (w0.rt.evaluators, []) :=
    unregList_restore _ P.evaluators w0.rt.evaluators hevalnd
      (fun n hn => (hevals n hn).2) (fun n hn => (hevals n hn).1)
  have hunregEv : unregEvents P.events (w0.rt.events ++ P.events) = w0.rt.events :=
    unregEvents_restore P.events w0.rt.events hevnd
      (fun pe hpe => ⟨(hevs pe hpe).2.1, (hevs pe hpe).2.2⟩)
      (fun pe hpe => (hevs pe hpe).1)
  have hunregS : unregServices w0.mgr.originalServices P.services
      (w0.rt.services ++ sucTypes P.services, sucTypes P.services) =
        (w0.rt.services, []) :=
    unregServices_restore _ P.services w0.rt.services hsvcnd
      (fun s hs => (hsvcs s hs).2) (fun s hs => (hsvcs s hs).1)
  have hplugs : removeFirstP (fun q => decide (q.name = P.name))
      (w0.rt.plugins ++ [P]) = w0.rt.plugins := by
    rw [removeFirstP_append_left (fun q hq => by simp [hactive q hq])]
    simp [removeFirstP]
  have horigany : (w0.mgr.originalPlugins.any (fun p => decide (p.name = P.name))) = false := by
    simpa [isOriginalPluginName] using horig
  have hmdelreg : ∀ v : List ComponentRegistration,
      mdel (mset w0.mgr.componentRegistry (createUniqueUuid P.name) v)
        (createUniqueUuid P.name) = w0.mgr.componentRegistry :=
    fun v => mdel_mset_none hreg0 v
  refine ⟨?_, ?_, ?_, ?_, ?_, ?_⟩ <;>
    simp [registerPlugin, loadPlugin, unloadPlugin, registerPluginComponents,
      unregisterPluginComponents, findPluginEntry, getComponentRegistrations,
      isOriginalPluginName, hid, hinit, mset_absent hid,
      mget_append_left_none hkeys0, mget_cons_self, findP_skip hskip, hfind_single,
      mupdate_append_front hkeys0, mupdate_cons_self, regList_spec,
      hfoldA, hfoldP, hfoldE, hev1, hev2, hsvc1, hsvc2,
      hunregA, hunregP, hunregE, hunregEv, hunregS, hplugs, horigany, hmdelreg,
      hreg0, emptyComponents]

/-- A plugin contributing one component of every kind. -/
def exPluginFull : Plugin :=
  { name := "p1", actions := ["a1"], providers := ["pr1"], evaluators := ["ev1"],
    events := [("e1", [7])],
    services := [{ serviceType := "sv1", startFails := false }] }

theorem C2_round_trip_witness :
    (registerPlugin worldEmpty exPluginFull 1).2 =
      Except.ok (createUniqueUuid exPluginFull.name) ∧
    (loadPlugin (registerPlugin worldEmpty exPluginFull 1).1
      (createUniqueUuid exPluginFull.name) false 2).2 = Except.ok () ∧
    (unloadPlugin (loadPlugin (registerPlugin worldEmpty exPluginFull 1).1
        (createUniqueUuid exPluginFull.name) false 2).1
      (createUniqueUuid exPluginFull.name) 3).2 = Except.ok () ∧
    (unloadPlugin (loadPlugin (registerPlugin worldEmpty exPluginFull 1).1
        (createUniqueUuid exPluginFull.name) false 2).1
      (createUniqueUuid exPluginFull.name) 3).1.rt = worldEmpty.rt ∧
    (∃ st, mget (unloadPlugin (loadPlugin (registerPlugin worldEmpty exPluginFull 1).1
        (createUniqueUuid exPluginFull.name) false 2).1
        (createUniqueUuid exPluginFull.name) 3).1.mgr.plugins
        (createUniqueUuid exPluginFull.name) = some st ∧
      st.status = PluginStatus.unloaded ∧ st.plugin = some exPluginFull ∧
      st.components = emptyComponents) ∧
    getComponentRegistrations (unloadPlugin (loadPlugin
        (registerPlugin worldEmpty exPluginFull 1).1
        (createUniqueUuid exPluginFull.name) false 2).1
        (createUniqueUuid exPluginFull.name) 3).1.mgr
      (createUniqueUuid exPluginFull.name) = [] :=
  C2_round_trip worldEmpty exPluginFull 1 2 3
    (by decide) (by decide) (by decide) (by decide) (by decide) (by decide) (by decide)
    (by decide) (by decide) (by decide) (by decide) (by decide) (by decide) (by decide)
    (by decide) (by decide)
